import Mathlib

/-!
Verification of the dynamic field configuration / rendering subsystem of a
headless-CMS admin client. The definitions below are a shallow embedding of:

- src/src/lib/field-renderer.tsx (applyMask, unmaskValue, getPasswordStrength,
  renderField dispatch, the TEXT keyfilter onChange, the TEXT onBlur validator,
  the NUMBER input onChange),
- src/unnamed/part_001 (FieldConfigDialog: onSubmit default-fill switch and
  handleNameChange),
- src/unnamed/part_002 (mapFieldTypeNameToEnum),
- src/unnamed/part_005 (FieldTypeEnum).

JavaScript values that flow through attribute / validation objects are modelled
by the inductive `JVal` (numbers as rationals; floating-point rounding plays no
role in any of the compared computations, which only use order comparisons and
equalities on values the UI produces). Objects are total functions from keys to
`JVal` with `JVal.undefined` for absent keys, which matches JS property access.
-/

namespace CmsFields

/-- A JavaScript value as it appears in `Field.attributes` / `Field.validations`
and in form state: `undefined` is JS `undefined` (absent key), `null` is JS `null`,
booleans, numbers (as rationals), strings, arrays and plain objects. -/
inductive JVal where
  | undefined : JVal
  | null : JVal
  | b : Bool → JVal
  | n : ℚ → JVal
  | s : String → JVal
  | arr : List JVal → JVal
  | obj : List (String × JVal) → JVal

/-- JS truthiness: `undefined`, `null`, `false`, `0` and `""` are falsy;
every other value (including empty arrays and objects) is truthy. -/
def truthy : JVal → Bool
  | .undefined => false
  | .null => false
  | .b x => x
  | .n x => x ≠ 0
  | .s x => x ≠ ""
  | .arr _ => true
  | .obj _ => true

/-- The JS expression `x || d` (used pervasively by the default-fill code):
`x` when truthy, otherwise the default `d`. -/
def jOr (x d : JVal) : JVal := if truthy x then x else d

/-- The JS expression `x !== undefined ? x : d` (the defaulting pattern used
for boolean attributes whose `false` must survive). -/
def jDef (x d : JVal) : JVal :=
  match x with
  | .undefined => d
  | x => x

/-- A JS object: a total map from property names to values, `undefined` for
properties never assigned. -/
abbrev Obj := String → JVal

/-- The empty object: every property reads as `undefined`. -/
def Obj.empty : Obj := fun _ => JVal.undefined

/-- Property assignment `o[key] = v`. -/
def Obj.set (o : Obj) (key : String) (v : JVal) : Obj :=
  fun k => if k = key then v else o k

/- ### FieldTypeEnum (src/unnamed/part_005, lines 194-227) -/

/-- The `FieldTypeEnum` string enum, one constructor per member, in source
declaration order. -/
inductive FieldTypeEnum where
  | TEXT | NUMBER | DATE | IMAGE | RICH_TEXT | MASK | CALENDAR | EDITOR
  | PASSWORD | AUTOCOMPLETE | CASCADE_SELECT | DROPDOWN | FILE
  | MULTI_STATE_CHECKBOX | MULTI_SELECT | MENTION | TEXTAREA | OTP
  | RICH_TEXT_BLOCKS | RICH_TEXT_MARKDOWN | BOOLEAN | JSON | EMAIL | MEDIA
  | ENUMERATION | RELATION | UID | COMPONENT | DYNAMIC_ZONE
  | INPUT_MASK | INPUT_TEXTAREA
  deriving DecidableEq

/-- The string value of each `FieldTypeEnum` member. -/
def fieldTypeValue : FieldTypeEnum → String
  | .TEXT => "text"
  | .NUMBER => "number"
  | .DATE => "date"
  | .IMAGE => "image"
  | .RICH_TEXT => "rich_text"
  | .MASK => "mask"
  | .CALENDAR => "calendar"
  | .EDITOR => "editor"
  | .PASSWORD => "password"
  | .AUTOCOMPLETE => "autocomplete"
  | .CASCADE_SELECT => "cascade_select"
  | .DROPDOWN => "dropdown"
  | .FILE => "file"
  | .MULTI_STATE_CHECKBOX => "multi_state_checkbox"
  | .MULTI_SELECT => "multi_select"
  | .MENTION => "mention"
  | .TEXTAREA => "textarea"
  | .OTP => "otp"
  | .RICH_TEXT_BLOCKS => "rich_text_blocks"
  | .RICH_TEXT_MARKDOWN => "rich_text_markdown"
  | .BOOLEAN => "boolean"
  | .JSON => "json"
  | .EMAIL => "email"
  | .MEDIA => "media"
  | .ENUMERATION => "enumeration"
  | .RELATION => "relation"
  | .UID => "uid"
  | .COMPONENT => "component"
  | .DYNAMIC_ZONE => "dynamic_zone"
  | .INPUT_MASK => "input_mask"
  | .INPUT_TEXTAREA => "input_textarea"

/-- `Object.values(FieldTypeEnum)`: the enum string values in declaration
order. -/
def fieldTypeEnumValues : List String :=
  ["text", "number", "date", "image", "rich_text", "mask", "calendar",
   "editor", "password", "autocomplete", "cascade_select", "dropdown", "file",
   "multi_state_checkbox", "multi_select", "mention", "textarea", "otp",
   "rich_text_blocks", "rich_text_markdown", "boolean", "json", "email",
   "media", "enumeration", "relation", "uid", "component", "dynamic_zone",
   "input_mask", "input_textarea"]

/-- Inverse of `fieldTypeValue`: the member whose string value is the given
name, if any. The cast `name as FieldTypeEnum` performed by the source after
its `Object.values(...).includes(name)` check is exactly this lookup. -/
def fieldTypeOfString : String → Option FieldTypeEnum
  | "text" => some .TEXT
  | "number" => some .NUMBER
  | "date" => some .DATE
  | "image" => some .IMAGE
  | "rich_text" => some .RICH_TEXT
  | "mask" => some .MASK
  | "calendar" => some .CALENDAR
  | "editor" => some .EDITOR
  | "password" => some .PASSWORD
  | "autocomplete" => some .AUTOCOMPLETE
  | "cascade_select" => some .CASCADE_SELECT
  | "dropdown" => some .DROPDOWN
  | "file" => some .FILE
  | "multi_state_checkbox" => some .MULTI_STATE_CHECKBOX
  | "multi_select" => some .MULTI_SELECT
  | "mention" => some .MENTION
  | "textarea" => some .TEXTAREA
  | "otp" => some .OTP
  | "rich_text_blocks" => some .RICH_TEXT_BLOCKS
  | "rich_text_markdown" => some .RICH_TEXT_MARKDOWN
  | "boolean" => some .BOOLEAN
  | "json" => some .JSON
  | "email" => some .EMAIL
  | "media" => some .MEDIA
  | "enumeration" => some .ENUMERATION
  | "relation" => some .RELATION
  | "uid" => some .UID
  | "component" => some .COMPONENT
  | "dynamic_zone" => some .DYNAMIC_ZONE
  | "input_mask" => some .INPUT_MASK
  | "input_textarea" => some .INPUT_TEXTAREA
  | _ => none

/-- `mapFieldTypeNameToEnum` (src/unnamed/part_002, lines 38-50): if the name
is one of the enum values it is returned as that member; otherwise the
function warns (second component `true`) and falls back to `TEXT`. The
function is total — it never throws. -/
def mapFieldTypeNameToEnum (name : String) : FieldTypeEnum × Bool :=
  if name ∈ fieldTypeEnumValues then
    ((fieldTypeOfString name).getD .TEXT, false)
  else
    (.TEXT, true)

/- ### Input masking (field-renderer.tsx, lines 15-85) -/

/-- ASCII letter test, the JS character class `[a-zA-Z]`. -/
def isAsciiLetter (c : Char) : Bool :=
  decide (('a' ≤ c ∧ c ≤ 'z') ∨ ('A' ≤ c ∧ c ≤ 'Z'))

/-- The loop of `applyMask`: walk the mask; `9` consumes a digit, `a` a
letter, `*` any character; a mismatched `9`/`a` emits the slot character
without consuming input; a literal mask character is emitted and consumes the
input character only when it matches; once input is exhausted, placeholder
positions are filled with the slot character. -/
def applyMaskAux (slotChar : Char) : List Char → List Char → List Char
  | [], _ => []
  | m :: ms, [] =>
    (if m = '9' ∨ m = 'a' ∨ m = '*' then slotChar else m)
      :: applyMaskAux slotChar ms []
  | m :: ms, v :: vt =>
    if m = '9' then
      if v.isDigit then v :: applyMaskAux slotChar ms vt
      else slotChar :: applyMaskAux slotChar ms (v :: vt)
    else if m = 'a' then
      if isAsciiLetter v then v :: applyMaskAux slotChar ms vt
      else slotChar :: applyMaskAux slotChar ms (v :: vt)
    else if m = '*' then
      v :: applyMaskAux slotChar ms vt
    else
      m :: (if v = m then applyMaskAux slotChar ms vt
            else applyMaskAux slotChar ms (v :: vt))

/-- `applyMask(value, mask, slotChar = '_')` (field-renderer.tsx 15-64). An
empty mask or empty value is returned unchanged. -/
def applyMask (value mask : String) (slotChar : Char := '_') : String :=
  if mask = "" ∨ value = "" then value
  else ⟨applyMaskAux slotChar mask.data value.data⟩

/-- The loop of `unmaskValue`: position-by-position over the masked value,
keeping characters at `9`-positions that are digits, at `a`-positions that are
letters, and everything at `*`-positions; value characters beyond the mask
length compare against `undefined` and are dropped. -/
def unmaskAux : List Char → List Char → List Char
  | [], _ => []
  | _ :: _, [] => []
  | v :: vt, m :: mt =>
    if (m = '9' ∧ v.isDigit) ∨ (m = 'a' ∧ isAsciiLetter v) ∨ m = '*' then
      v :: unmaskAux vt mt
    else
      unmaskAux vt mt

/-- `unmaskValue(value, mask)` (field-renderer.tsx 67-85). -/
def unmaskValue (value mask : String) : String :=
  if mask = "" ∨ value = "" then value
  else ⟨unmaskAux value.data mask.data⟩

/- ### Password strength (field-renderer.tsx, lines 735-755) -/

/-- The three strength buckets of `getPasswordStrength`. -/
inductive Strength where
  | weak | medium | strong
  deriving DecidableEq

/-- The six scored criteria, in source order: length at least 8, length at
least 12, has an uppercase letter, a lowercase letter, a digit, and a
character outside `[A-Za-z0-9]`. -/
def passwordCriteria (password : String) : List Bool :=
  [decide (password.length ≥ 8),
   decide (password.length ≥ 12),
   password.data.any fun c => decide ('A' ≤ c ∧ c ≤ 'Z'),
   password.data.any fun c => decide ('a' ≤ c ∧ c ≤ 'z'),
   password.data.any Char.isDigit,
   password.data.any fun c =>
     decide (¬ (('A' ≤ c ∧ c ≤ 'Z') ∨ ('a' ≤ c ∧ c ≤ 'z') ∨ c.isDigit = true))]

/-- The number of satisfied criteria, 0 to 6. -/
def passwordScore (password : String) : Nat :=
  (passwordCriteria password).count true

/-- `getPasswordStrength` (field-renderer.tsx 735-755): empty passwords are
weak; otherwise the score accumulated over the six checks classifies the
password as weak (< 3), medium (< 5) or strong. -/
def getPasswordStrength (password : String) : Strength :=
  if password = "" then .weak
  else
    let score : Nat :=
      (if password.length ≥ 8 then 1 else 0)
      + (if password.length ≥ 12 then 1 else 0)
      + (if password.data.any (fun c => decide ('A' ≤ c ∧ c ≤ 'Z')) then 1 else 0)
      + (if password.data.any (fun c => decide ('a' ≤ c ∧ c ≤ 'z')) then 1 else 0)
      + (if password.data.any Char.isDigit then 1 else 0)
      + (if password.data.any
            (fun c => decide (¬ (('A' ≤ c ∧ c ≤ 'Z') ∨ ('a' ≤ c ∧ c ≤ 'z') ∨ c.isDigit = true)))
         then 1 else 0)
    if score < 3 then .weak else if score < 5 then .medium else .strong

/- ### Field model and the save-time default-fill switch
(src/unnamed/part_001, onSubmit, lines 245-589) -/

/-- A `Field` as produced by the configuration dialog: its kind, its
top-level properties (name, apiId, dependOn, displayName, isVisible, ...) and
the two nested configuration objects. Top-level properties are kept in an
`Obj` so that absent (`undefined`) values are representable, as in the
TypeScript interface where almost every property is optional. -/
structure Field where
  type : FieldTypeEnum
  top : Obj
  attributes : Obj
  validations : Obj

/-- The statement `o.key = o.key || d`. -/
def orSet (o : Obj) (key : String) (d : JVal) : Obj := o.set key (jOr (o key) d)

/-- The statement `o.key = o.key !== undefined ? o.key : d`. -/
def defSet (o : Obj) (key : String) (d : JVal) : Obj := o.set key (jDef (o key) d)

/-- TEXT branch, attribute defaults (part_001 lines 258-274). The
`tooltipOptions` default is an object built from the just-defaulted
`tooltipPosition` / `tooltipEvent`, exactly as in the source. -/
def fillTextAttrs (a : Obj) : Obj :=
  let a := orSet a "placeholder" (.s "Enter text...")
  let a := orSet a "keyfilter" (.s "")
  let a := orSet a "helpText" (.s "")
  let a := defSet a "floatLabel" (.b true)
  let a := orSet a "disabled" (.b false)
  let a := orSet a "icon" (.s "")
  let a := orSet a "tooltip" (.s "")
  let a := orSet a "tooltipPosition" (.s "top")
  let a := orSet a "tooltipEvent" (.s "hover")
  let a := orSet a "autoClear" (.b false)
  let a := orSet a "variant" (.s "outlined")
  a.set "tooltipOptions" (jOr (a "tooltipOptions")
    (.obj [("position", jOr (a "tooltipPosition") (.s "top")),
           ("event", jOr (a "tooltipEvent") (.s "hover"))]))

/-- TEXT branch, validation defaults (lines 277-280). -/
def fillTextVals (v : Obj) : Obj :=
  let v := orSet v "minLength" .undefined
  let v := orSet v "maxLength" .undefined
  let v := orSet v "regex" (.s "")
  orSet v "apiUrl" (.s "")

/-- INPUT_MASK branch, attribute defaults (lines 285-294). -/
def fillInputMaskAttrs (a : Obj) : Obj :=
  let a := orSet a "placeholder" (.s "Enter text...")
  let a := orSet a "mask" (.s "999-999-9999")
  let a := orSet a "slotChar" (.s "_")
  let a := orSet a "helpText" (.s "")
  let a := defSet a "floatLabel" (.b true)
  let a := orSet a "disabled" (.b false)
  let a := orSet a "icon" (.s "")
  let a := orSet a "autoClear" (.b false)
  let a := orSet a "variant" (.s "outlined")
  orSet a "invalid" (.b false)

/-- INPUT_MASK branch, validation defaults (lines 297-300); `a` is the
attributes object after its own defaulting, whose `mask` the source reads. -/
def fillInputMaskVals (a v : Obj) : Obj :=
  let v := orSet v "required" (.b false)
  let v := v.set "mask" (jOr (v "mask") (a "mask"))
  let v := orSet v "regex" (.s "")
  defSet v "unmask" (.b false)

/-- RICH_TEXT_BLOCKS / RICH_TEXT_MARKDOWN branch (lines 306-309). -/
def fillRichTextAttrs (a : Obj) : Obj :=
  let a := orSet a "rows" (.n 10)
  let a := orSet a "cols" (.n 80)
  let a := defSet a "autoResize" (.b true)
  orSet a "placeholder" (.s "Enter rich text...")

/-- NUMBER branch, attribute defaults (lines 314-338). -/
def fillNumberAttrs (a : Obj) : Obj :=
  let a := orSet a "placeholder" (.s "Enter number...")
  let a := orSet a "helpText" (.s "")
  let a := orSet a "mode" (.s "decimal")
  let a := orSet a "locale" (.s "en-US")
  let a := orSet a "suffix" (.s "")
  let a := orSet a "prefix" (.s "")
  let a := orSet a "showButtons" (.b false)
  let a := orSet a "currency" (.s "USD")
  let a := orSet a "step" (.n 1)
  let a := orSet a "min" .undefined
  let a := orSet a "max" .undefined
  let a := orSet a "minFractionDigits" (.n 0)
  let a := orSet a "maxFractionDigits" (.n 2)
  let a := orSet a "incrementButtonIcon" (.s "plus")
  let a := orSet a "decrementButtonIcon" (.s "minus")
  let a := orSet a "decrementButtonClassName" (.s "")
  let a := orSet a "incrementButtonClassName" (.s "")
  let a := orSet a "buttonLayout" (.s "stacked")
  let a := orSet a "autoClear" (.b false)
  let a := orSet a "icon" (.s "")
  let a := defSet a "floatLabel" (.b true)
  let a := orSet a "variant" (.s "outlined")
  let a := orSet a "invalid" (.b false)
  let a := orSet a "disabled" (.b false)
  defSet a "useGrouping" (.b true)

/-- NUMBER branch, validation defaults (lines 341-345). -/
def fillNumberVals (v : Obj) : Obj :=
  let v := orSet v "required" (.b false)
  let v := orSet v "minValue" .undefined
  let v := orSet v "maxValue" .undefined
  let v := orSet v "minFractionDigits" .undefined
  orSet v "maxFractionDigits" .undefined

/-- DATE branch, attribute defaults (lines 351-377). -/
def fillDateAttrs (a : Obj) : Obj :=
  let a := orSet a "dateFormat" (.s "mm/dd/yy")
  let a := orSet a "locale" (.s "en-US")
  let a := defSet a "showIcon" (.b true)
  let a := orSet a "minDate" (.s "")
  let a := orSet a "maxDate" (.s "")
  let a := orSet a "readOnlyInput" (.b false)
  let a := orSet a "selectionMode" (.s "single")
  let a := orSet a "hideOnRangeSelection" (.b false)
  let a := defSet a "showButtonBar" (.b true)
  let a := orSet a "view" (.s "month")
  let a := orSet a "numberOfMonths" (.n 1)
  let a := orSet a "showTime" (.b false)
  let a := orSet a "hourFormat" (.s "24")
  let a := orSet a "timeOnly" (.b false)
  let a := orSet a "variant" (.s "outlined")
  let a := orSet a "icon" (.s "")
  let a := defSet a "floatLabel" (.b true)
  let a := orSet a "invalid" (.b false)
  let a := orSet a "disabled" (.b false)
  let a := orSet a "inline" (.b false)
  orSet a "showWeek" (.b false)

/-- The common top-level defaulting block repeated in the DATE, PASSWORD,
AUTOCOMPLETE, CASCADE_SELECT, DROPDOWN and INPUT_TEXTAREA branches:
`dependOn`, `uniqueId`, `displayName = displayName || name`, `isVisible`. -/
def fillCommonTop (t : Obj) : Obj :=
  let t := orSet t "dependOn" (.s "")
  let t := orSet t "uniqueId" (.s "")
  let t := t.set "displayName" (jOr (t "displayName") (t "name"))
  defSet t "isVisible" (.b true)

/-- JSON branch (lines 393-394). -/
def fillJsonAttrs (a : Obj) : Obj :=
  let a := orSet a "rows" (.n 10)
  defSet a "autoResize" (.b true)

/-- EMAIL branch (lines 399-400). -/
def fillEmailAttrs (a : Obj) : Obj :=
  let a := orSet a "placeholder" (.s "Enter email...")
  orSet a "keyfilter" (.s "email")

/-- PASSWORD branch, attribute defaults (lines 409-423). -/
def fillPasswordAttrs (a : Obj) : Obj :=
  let a := orSet a "promptLabel" (.s "Enter a password")
  let a := orSet a "icon" (.s "")
  let a := orSet a "variant" (.s "outlined")
  let a := orSet a "weakLabel" (.s "Weak")
  let a := orSet a "mediumLabel" (.s "Medium")
  let a := orSet a "strongLabel" (.s "Strong")
  let a := defSet a "feedback" (.b true)
  let a := defSet a "toggleMask" (.b true)
  let a := defSet a "floatLabel" (.b true)
  let a := orSet a "invalid" (.b false)
  orSet a "disabled" (.b false)

/-- PASSWORD branch, validation defaults (lines 432-435). -/
def fillPasswordVals (v : Obj) : Obj :=
  let v := orSet v "required" (.b false)
  let v := orSet v "minLength" .undefined
  let v := orSet v "maxLength" .undefined
  orSet v "regex" (.s "")

/-- ENUMERATION branch (lines 440-443). -/
def fillEnumerationAttrs (a : Obj) : Obj :=
  let a := defSet a "dropdown" (.b true)
  let a := orSet a "multiple" (.b false)
  let a := defSet a "filter" (.b true)
  defSet a "showClear" (.b true)

/-- MEDIA branch (lines 448-452). -/
def fillMediaAttrs (a : Obj) : Obj :=
  let a := orSet a "mode" (.s "basic")
  let a := orSet a "accept" (.s "image/*")
  let a := orSet a "maxFileSize" (.n 10000000)
  let a := defSet a "auto" (.b true)
  orSet a "chooseLabel" (.s "Choose")

/-- RELATION branch (lines 457-458). -/
def fillRelationAttrs (a : Obj) : Obj :=
  let a := defSet a "dropdown" (.b true)
  defSet a "filter" (.b true)

/-- AUTOCOMPLETE branch, attribute defaults (lines 464-476). -/
def fillAutocompleteAttrs (a : Obj) : Obj :=
  let a := orSet a "placeholder" (.s "Start typing...")
  let a := orSet a "icon" (.s "")
  let a := orSet a "variant" (.s "outlined")
  let a := defSet a "dropdown" (.b true)
  let a := orSet a "object" (.b false)
  let a := orSet a "group" (.b false)
  let a := orSet a "forceSelection" (.b false)
  let a := orSet a "multiple" (.b false)
  let a := defSet a "floatLabel" (.b true)
  let a := orSet a "invalid" (.b false)
  orSet a "disabled" (.b false)

/-- CASCADE_SELECT branch, attribute defaults (lines 488-501). -/
def fillCascadeSelectAttrs (a : Obj) : Obj :=
  let a := orSet a "placeholder" (.s "Select a value...")
  let a := orSet a "variant" (.s "outlined")
  let a := orSet a "optionLabel" (.s "label")
  let a := orSet a "optionValue" (.s "value")
  let a := orSet a "optionGroupLabel" (.s "label")
  let a := orSet a "optionGroupChildren" (.s "items")
  let a := orSet a "options" (.arr [])
  let a := defSet a "floatLabel" (.b true)
  let a := orSet a "invalid" (.b false)
  orSet a "disabled" (.b false)

/-- DROPDOWN branch, attribute defaults (lines 513-538). -/
def fillDropdownAttrs (a : Obj) : Obj :=
  let a := orSet a "placeholder" (.s "Select an option...")
  let a := orSet a "variant" (.s "outlined")
  let a := orSet a "options" (.arr [])
  let a := orSet a "optionLabel" (.s "text")
  let a := orSet a "optionValue" (.s "value")
  let a := orSet a "optionGroupLabel" (.s "label")
  let a := orSet a "optionGroupChildren" (.s "items")
  let a := defSet a "checkmark" (.b true)
  let a := defSet a "highlightOnSelect" (.b true)
  let a := orSet a "editable" (.b false)
  let a := defSet a "filter" (.b true)
  let a := orSet a "showClear" (.b false)
  let a := orSet a "loading" (.b false)
  let a := defSet a "floatLabel" (.b true)
  let a := orSet a "invalid" (.b false)
  let a := orSet a "disabled" (.b false)
  let a := orSet a "optionGroupTemplate" (.s "")
  let a := orSet a "valueTemplate" (.s "")
  let a := orSet a "itemTemplate" (.s "")
  orSet a "panelFooterTemplate" (.s "")

/-- DROPDOWN branch, top-level defaults (lines 541-545): the common block
followed by `getApiUrl`. -/
def fillDropdownTop (t : Obj) : Obj :=
  orSet (fillCommonTop t) "getApiUrl" (.s "")

/-- INPUT_TEXTAREA branch, attribute defaults (lines 551-560). -/
def fillTextareaAttrs (a : Obj) : Obj :=
  let a := orSet a "placeholder" (.s "Enter text...")
  let a := orSet a "rows" (.n 5)
  let a := orSet a "cols" .undefined
  let a := defSet a "autoResize" (.b true)
  let a := orSet a "keyfilter" (.s "")
  let a := defSet a "floatLabel" (.b true)
  let a := orSet a "variant" (.s "outlined")
  let a := orSet a "disabled" (.b false)
  let a := orSet a "invalid" (.b false)
  orSet a "helpText" (.s "")

/-- INPUT_TEXTAREA branch, validation defaults (lines 563-565). -/
def fillTextareaVals (v : Obj) : Obj :=
  let v := orSet v "required" (.b false)
  let v := orSet v "minLength" .undefined
  orSet v "maxLength" .undefined

/-- UID branch (lines 576-577). -/
def fillUidAttrs (a : Obj) : Obj :=
  let a := orSet a "placeholder" (.s "Auto-generated UID")
  defSet a "disabled" (.b true)

/-- The save-time default-fill step of `onSubmit` (part_001 lines 245-589):
the switch on the field kind. Kinds without a case (BOOLEAN, COMPONENT,
DYNAMIC_ZONE and the legacy aliases) leave the field unchanged. The two
guards that replace a missing attributes / validations object with `{}` are
the identity here, because an absent object and an empty object read
identically key by key. -/
def applyDefaults (fd : Field) : Field :=
  match fd.type with
  | .TEXT =>
      { fd with attributes := fillTextAttrs fd.attributes,
                validations := fillTextVals fd.validations }
  | .INPUT_MASK =>
      let a := fillInputMaskAttrs fd.attributes
      { fd with attributes := a, validations := fillInputMaskVals a fd.validations }
  | .RICH_TEXT_BLOCKS | .RICH_TEXT_MARKDOWN =>
      { fd with attributes := fillRichTextAttrs fd.attributes }
  | .NUMBER =>
      { fd with attributes := fillNumberAttrs fd.attributes,
                validations := fillNumberVals fd.validations }
  | .DATE =>
      { fd with attributes := fillDateAttrs fd.attributes,
                top := fillCommonTop fd.top }
  | .JSON => { fd with attributes := fillJsonAttrs fd.attributes }
  | .EMAIL => { fd with attributes := fillEmailAttrs fd.attributes }
  | .PASSWORD =>
      { fd with attributes := fillPasswordAttrs fd.attributes,
                validations := fillPasswordVals fd.validations,
                top := fillCommonTop fd.top }
  | .ENUMERATION => { fd with attributes := fillEnumerationAttrs fd.attributes }
  | .MEDIA => { fd with attributes := fillMediaAttrs fd.attributes }
  | .RELATION => { fd with attributes := fillRelationAttrs fd.attributes }
  | .AUTOCOMPLETE =>
      { fd with attributes := fillAutocompleteAttrs fd.attributes,
                top := fillCommonTop fd.top }
  | .CASCADE_SELECT =>
      { fd with attributes := fillCascadeSelectAttrs fd.attributes,
                top := fillCommonTop fd.top }
  | .DROPDOWN =>
      { fd with attributes := fillDropdownAttrs fd.attributes,
                top := fillDropdownTop fd.top }
  | .INPUT_TEXTAREA =>
      { fd with attributes := fillTextareaAttrs fd.attributes,
                validations := fillTextareaVals fd.validations,
                top := fillCommonTop fd.top }
  | .UID => { fd with attributes := fillUidAttrs fd.attributes }
  | _ => fd

/- ### apiId auto-derivation (src/unnamed/part_001, handleNameChange,
lines 595-607) -/

/-- JS regex `\s` on the characters this UI handles (ASCII whitespace). -/
def isJsSpace (c : Char) : Bool :=
  decide (c = ' ' ∨ c = '\t' ∨ c = '\n' ∨ c = '\r' ∨ c = '\x0b' ∨ c = '\x0c')

mutual

/-- `replace(/\s+/g, '_')`: each maximal run of whitespace becomes one
underscore. -/
def replaceWsRuns : List Char → List Char
  | [] => []
  | c :: t => if isJsSpace c then '_' :: skipWsRun t else c :: replaceWsRuns t

/-- Consumes the rest of a whitespace run after its first character has been
replaced. -/
def skipWsRun : List Char → List Char
  | [] => []
  | c :: t => if isJsSpace c then skipWsRun t else c :: replaceWsRuns t

end

/-- The apiId derivation of `handleNameChange` (part_001 lines 602-604):
`name.toLowerCase().replace(/\s+/g, '_').replace(/[^a-z0-9_]/g, '')`.
ASCII lowercasing (the names this subsystem manipulates are ASCII). -/
def deriveApiId (name : String) : String :=
  ⟨(replaceWsRuns (name.data.map Char.toLower)).filter fun c =>
      decide (('a' ≤ c ∧ c ≤ 'z') ∨ c.isDigit = true ∨ c = '_')⟩

/-- The name / apiId part of the dialog's form state
(`form.setValue('name', ...)` / `form.setValue('apiId', ...)`). -/
structure DialogForm where
  name : String
  apiId : String

/-- The user manually editing the API ID input writes the form value; the
component keeps no dirty flag for it. -/
def setApiId (form : DialogForm) (newApiId : String) : DialogForm :=
  { form with apiId := newApiId }

/-- `handleNameChange` (part_001 lines 596-607). `fieldApiId` is
`field?.apiId` for the dialog's `field` prop — the pre-existing field being
edited, if any; the guard `!field?.apiId` re-derives the apiId whenever that
prop is absent or its apiId is empty, regardless of the form state. -/
def handleNameChange (fieldApiId : Option String) (form : DialogForm)
    (newName : String) : DialogForm :=
  let form := { form with name := newName }
  if fieldApiId.getD "" = "" then { form with apiId := deriveApiId newName }
  else form

/- ### Key filters (field-renderer.tsx, TEXT onChange, lines 228-273) -/

/-- Strips the optional leading minus of `-?` patterns. -/
def stripMinus : List Char → List Char
  | '-' :: t => t
  | l => l

/-- The body `\d*\.?\d{0,k}$` (or `\d*\.?\d*$` when no bound): digits, then
optionally a dot followed by digits, at most `k` of them when bounded. -/
def digitsOptDotDigits (maxFrac : Option Nat) (l : List Char) : Bool :=
  match l.dropWhile Char.isDigit with
  | [] => true
  | c :: t =>
      decide (c = '.') && t.all Char.isDigit
        && (match maxFrac with
            | none => true
            | some k => decide (t.length ≤ k))

/-- Regex `^-?\d*$` (keyfilter "int"). -/
def reInt (input : String) : Bool := (stripMinus input.data).all Char.isDigit

/-- Regex `^\d*$` (keyfilter "pint"). -/
def rePInt (input : String) : Bool := input.data.all Char.isDigit

/-- Regex `^-?\d*\.?\d*$` (keyfilter "num"). -/
def reNum (input : String) : Bool := digitsOptDotDigits none (stripMinus input.data)

/-- Regex `^\d*\.?\d*$` (keyfilter "pnum"). -/
def rePNum (input : String) : Bool := digitsOptDotDigits none input.data

/-- Regex `^-?\d*\.?\d{0,2}$` (keyfilter "money"). -/
def reMoney (input : String) : Bool := digitsOptDotDigits (some 2) (stripMinus input.data)

/-- The JS character class `[0-9a-fA-F]`. -/
def isHexDigitChar (c : Char) : Bool :=
  decide (c.isDigit = true ∨ ('a' ≤ c ∧ c ≤ 'f') ∨ ('A' ≤ c ∧ c ≤ 'F'))

/-- Regex `^[0-9a-fA-F]*$` (keyfilter "hex"). -/
def reHex (input : String) : Bool := input.data.all isHexDigitChar

/-- Regex `^[a-zA-Z]*$` (keyfilter "alpha"). -/
def reAlpha (input : String) : Bool := input.data.all isAsciiLetter

/-- Regex `^[a-zA-Z0-9]*$` (keyfilter "alphanum"). -/
def reAlphaNum (input : String) : Bool :=
  input.data.all fun c => isAsciiLetter c || c.isDigit

/-- The switch on `attributes.keyfilter` inside the TEXT onChange handler
(lines 232-269): each recognized class tests its pattern; "email" performs no
per-keystroke check (full validation happens on blur) and an unrecognized
class hits no case, so the edit is accepted. -/
def keyfilterAccepts (kf : String) (input : String) : Bool :=
  match kf with
  | "int" => reInt input
  | "pint" => rePInt input
  | "num" => reNum input
  | "pnum" => rePNum input
  | "money" => reMoney input
  | "hex" => reHex input
  | "alpha" => reAlpha input
  | "alphanum" => reAlphaNum input
  | "email" => true
  | _ => true

/-- The TEXT onChange handler (lines 228-273): if a keyfilter attribute is
set (truthy) and the proposed value fails its pattern the handler returns
early (`none`: onChange is not invoked); otherwise it invokes onChange with
the proposed value. -/
def textFieldOnChange (attrs : Obj) (input : String) : Option String :=
  if truthy (attrs "keyfilter") then
    match attrs "keyfilter" with
    | JVal.s kf => if keyfilterAccepts kf input then some input else none
    | _ => some input
  else some input

/-- The value shown by the controlled input after an edit attempt: the
onChange argument when it fired, the previous value otherwise. -/
def valueAfterEdit (attrs : Obj) (current proposed : String) : String :=
  match textFieldOnChange attrs proposed with
  | some w => w
  | none => current

/-- An attributes object whose only set key is the given keyfilter. -/
def kfAttrs (kf : String) : Obj := Obj.empty.set "keyfilter" (JVal.s kf)

/- ### Blur-time validation of the TEXT (short text) widget
(field-renderer.tsx, lines 274-315) -/

/-- `validations.minLength && value.length < validations.minLength`:
active only when `minLength` is a truthy number (the zod schema types it
`number | undefined`). -/
def minLengthFails (vals : Obj) (value : String) : Bool :=
  match vals "minLength" with
  | JVal.n m => truthy (JVal.n m) && decide ((value.length : ℚ) < m)
  | _ => false

/-- `validations.maxLength && value.length > validations.maxLength`. -/
def maxLengthFails (vals : Obj) (value : String) : Bool :=
  match vals "maxLength" with
  | JVal.n m => truthy (JVal.n m) && decide ((value.length : ℚ) > m)
  | _ => false

/-- `validations.regex && value`, then `new RegExp(regex).test(value)` with
compile failures caught and the rule skipped. The regex engine is an oracle
parameter `rx`: `none` models a pattern whose compilation throws. -/
def regexRuleFails (vals : Obj) (rx : String → String → Option Bool)
    (value : String) : Bool :=
  match vals "regex" with
  | JVal.s p =>
      truthy (JVal.s p) && decide (value ≠ "")
        && (match rx p value with
            | some b => !b
            | none => false)
  | _ => false

/-- The TEXT onBlur validator (lines 274-315): `isValid` starts true and is
cleared by the minLength, maxLength and regex checks — and by nothing else;
in particular there is no required check in this branch. -/
def textBlurIsValid (vals : Obj) (rx : String → String → Option Bool)
    (value : String) : Bool :=
  !(minLengthFails vals value || maxLengthFails vals value
      || regexRuleFails vals rx value)

/-- Modelled from the claim wording, not from the source: the rule set the
claim says blur evaluates for a short-text field — required, minLength,
maxLength and regex — with the field invalid exactly when some rule fails. -/
def specClaimedTextBlurInvalid (vals : Obj) (rx : String → String → Option Bool)
    (value : String) : Bool :=
  (truthy (vals "required") && decide (value = ""))
    || minLengthFails vals value || maxLengthFails vals value
    || regexRuleFails vals rx value

/-- Validations `{ required: true }` only. -/
def requiredOnlyVals : Obj := Obj.empty.set "required" (JVal.b true)

/-- Validations `{ required: true, minLength: 3 }`. -/
def minLen3Vals : Obj :=
  (Obj.empty.set "required" (JVal.b true)).set "minLength" (JVal.n 3)

/-- A regex oracle under which every pattern fails to compile. -/
def noRegexOracle : String → String → Option Bool := fun _ _ => none

/- ### renderField dispatch (field-renderer.tsx, lines 94-1274) -/

/-- `commonProps` (lines 105-112): the props shared by every widget. -/
structure CommonProps where
  id : JVal
  disabled : JVal
  required : JVal
  ariaLabel : JVal

/-- The construction of `commonProps` from the field. -/
def commonProps (f : Field) : CommonProps :=
  { id := f.top "apiId",
    disabled := f.attributes "disabled",
    required := jOr (f.validations "required") (f.top "required"),
    ariaLabel := jOr (f.top "displayName") (f.top "name") }

/-- Which widget shape each switch branch of `renderField` produces; kinds
without a branch fall through to the default plain input. -/
inductive WidgetKind where
  | inputMask | textInput | richText | numberInput | booleanSwitch
  | datePicker | jsonEditor | emailInput | passwordInput | autocomplete
  | cascadeSelect | dropdown | media | textareaInput | fallbackInput
  deriving DecidableEq

/-- The branch selected by `switch (field.type)`. -/
def widgetFor : FieldTypeEnum → WidgetKind
  | .INPUT_MASK => .inputMask
  | .TEXT => .textInput
  | .RICH_TEXT_BLOCKS | .RICH_TEXT_MARKDOWN => .richText
  | .NUMBER => .numberInput
  | .BOOLEAN => .booleanSwitch
  | .DATE => .datePicker
  | .JSON => .jsonEditor
  | .EMAIL => .emailInput
  | .PASSWORD => .passwordInput
  | .AUTOCOMPLETE => .autocomplete
  | .CASCADE_SELECT => .cascadeSelect
  | .DROPDOWN => .dropdown
  | .MEDIA => .media
  | .INPUT_TEXTAREA => .textareaInput
  | _ => .fallbackInput

/-- The rendered output: the common props, the widget shape, and the
displayed value (`value || ''` in the text-like branches). -/
structure Rendered where
  props : CommonProps
  widget : WidgetKind
  display : JVal

/-- `renderField` (lines 94-1274): the guard `if (field.isVisible === false)
return null` runs before anything is built; every switch branch (and the
default) otherwise returns a widget. -/
def renderField (f : Field) (value : JVal) : Option Rendered :=
  match f.top "isVisible" with
  | JVal.b false => none
  | _ => some { props := commonProps f,
                widget := widgetFor f.type,
                display := jOr value (JVal.s "") }

/-- A concrete invisible field. -/
def invisibleField : Field :=
  ⟨.DATE, Obj.empty.set "isVisible" (JVal.b false), Obj.empty, Obj.empty⟩

/- ### NUMBER input onChange (field-renderer.tsx, lines 414-429) -/

/-- The NUMBER input onChange handler, modelled after parsing: the empty
input maps to `none` (the source passes `null`); otherwise the parsed value
is first raised to `attributes.min` and the result then lowered to
`attributes.max`, each only when that attribute is defined (the zod schema
types both as `number | undefined`). -/
def numberInputOnChange (attrs : Obj) (parsed : Option ℚ) : Option ℚ :=
  match parsed with
  | none => none
  | some x0 =>
    let x1 := match attrs "min" with
      | JVal.n m => if x0 < m then m else x0
      | _ => x0
    let x2 := match attrs "max" with
      | JVal.n mx => if x1 > mx then mx else x1
      | _ => x1
    some x2

/-- An attributes object holding the given optional min / max bounds. -/
def numAttrs (mn mx : Option ℚ) : Obj :=
  (Obj.empty.set "min" (match mn with | some m => JVal.n m | none => JVal.undefined)).set
    "max" (match mx with | some m => JVal.n m | none => JVal.undefined)

/-- A short-text field whose user-entered placeholder is the empty string. -/
def fdPlaceholderEmpty : Field :=
  ⟨.TEXT, Obj.empty, Obj.empty.set "placeholder" (JVal.s ""), Obj.empty⟩

/-- A short-text field whose user-entered placeholder is a truthy string and
whose minLength validation is a truthy number. -/
def fdPlaceholderCustom : Field :=
  ⟨.TEXT, Obj.empty, Obj.empty.set "placeholder" (JVal.s "Keep me"),
    Obj.empty.set "minLength" (JVal.n 7)⟩


/- ### Lemmas and theorems -/

theorem jOr_absorb (x d : JVal) : jOr (jOr x d) d = jOr x d := by
  unfold jOr
  by_cases hx : truthy x = true
  · simp [hx]
  · simp [hx]

theorem jDef_absorb (x d : JVal) : jDef (jDef x d) d = jDef x d := by
  unfold jDef
  cases x <;> cases d <;> rfl

theorem jOr_truthy {x : JVal} (d : JVal) (h : truthy x = true) : jOr x d = x := by
  simp [jOr, h]

theorem jDef_truthy {x : JVal} (d : JVal) (h : truthy x = true) : jDef x d = x := by
  cases x <;> simp_all [jDef, truthy]

theorem Obj.set_fix (o : Obj) (k : String) (v : JVal) (h : o k = v) :
    o.set k v = o := by
  funext j
  by_cases hj : j = k
  · subst hj; simp [Obj.set, h]
  · simp [Obj.set, hj]

theorem orSet_fix (o : Obj) (k : String) (d : JVal) (h : o k = jOr (o k) d) :
    orSet o k d = o :=
  Obj.set_fix o k (jOr (o k) d) h

theorem defSet_fix (o : Obj) (k : String) (d : JVal) (h : o k = jDef (o k) d) :
    defSet o k d = o :=
  Obj.set_fix o k (jDef (o k) d) h
theorem fillTextAttrs_idem (o : Obj) :
    fillTextAttrs (fillTextAttrs o) = fillTextAttrs o := by
  have h1 : fillTextAttrs o "placeholder" = jOr (o "placeholder") (JVal.s "Enter text...") := by
    simp [fillTextAttrs, orSet, defSet, Obj.set, jOr_absorb]
  have h2 : fillTextAttrs o "keyfilter" = jOr (o "keyfilter") (JVal.s "") := by
    simp [fillTextAttrs, orSet, defSet, Obj.set, jOr_absorb]
  have h3 : fillTextAttrs o "helpText" = jOr (o "helpText") (JVal.s "") := by
    simp [fillTextAttrs, orSet, defSet, Obj.set, jOr_absorb]
  have h4 : fillTextAttrs o "floatLabel" = jDef (o "floatLabel") (JVal.b true) := by
    simp [fillTextAttrs, orSet, defSet, Obj.set, jOr_absorb]
  have h5 : fillTextAttrs o "disabled" = jOr (o "disabled") (JVal.b false) := by
    simp [fillTextAttrs, orSet, defSet, Obj.set, jOr_absorb]
  have h6 : fillTextAttrs o "icon" = jOr (o "icon") (JVal.s "") := by
    simp [fillTextAttrs, orSet, defSet, Obj.set, jOr_absorb]
  have h7 : fillTextAttrs o "tooltip" = jOr (o "tooltip") (JVal.s "") := by
    simp [fillTextAttrs, orSet, defSet, Obj.set, jOr_absorb]
  have h8 : fillTextAttrs o "tooltipPosition" = jOr (o "tooltipPosition") (JVal.s "top") := by
    simp [fillTextAttrs, orSet, defSet, Obj.set, jOr_absorb]
  have h9 : fillTextAttrs o "tooltipEvent" = jOr (o "tooltipEvent") (JVal.s "hover") := by
    simp [fillTextAttrs, orSet, defSet, Obj.set, jOr_absorb]
  have h10 : fillTextAttrs o "autoClear" = jOr (o "autoClear") (JVal.b false) := by
    simp [fillTextAttrs, orSet, defSet, Obj.set, jOr_absorb]
  have h11 : fillTextAttrs o "variant" = jOr (o "variant") (JVal.s "outlined") := by
    simp [fillTextAttrs, orSet, defSet, Obj.set, jOr_absorb]
  have h12 : fillTextAttrs o "tooltipOptions" = jOr (o "tooltipOptions") (JVal.obj [("position", jOr (o "tooltipPosition") (JVal.s "top")), ("event", jOr (o "tooltipEvent") (JVal.s "hover"))]) := by
    simp [fillTextAttrs, orSet, defSet, Obj.set, jOr_absorb]
  generalize hX : fillTextAttrs o = X
  rw [hX] at h1 h2 h3 h4 h5 h6 h7 h8 h9 h10 h11 h12
  simp only [fillTextAttrs]
  rw [orSet_fix X "placeholder" (JVal.s "Enter text...") (by rw [h1]; exact (jOr_absorb _ _).symm)]
  rw [orSet_fix X "keyfilter" (JVal.s "") (by rw [h2]; exact (jOr_absorb _ _).symm)]
  rw [orSet_fix X "helpText" (JVal.s "") (by rw [h3]; exact (jOr_absorb _ _).symm)]
  rw [defSet_fix X "floatLabel" (JVal.b true) (by rw [h4]; exact (jDef_absorb _ _).symm)]
  rw [orSet_fix X "disabled" (JVal.b false) (by rw [h5]; exact (jOr_absorb _ _).symm)]
  rw [orSet_fix X "icon" (JVal.s "") (by rw [h6]; exact (jOr_absorb _ _).symm)]
  rw [orSet_fix X "tooltip" (JVal.s "") (by rw [h7]; exact (jOr_absorb _ _).symm)]
  rw [orSet_fix X "tooltipPosition" (JVal.s "top") (by rw [h8]; exact (jOr_absorb _ _).symm)]
  rw [orSet_fix X "tooltipEvent" (JVal.s "hover") (by rw [h9]; exact (jOr_absorb _ _).symm)]
  rw [orSet_fix X "autoClear" (JVal.b false) (by rw [h10]; exact (jOr_absorb _ _).symm)]
  rw [orSet_fix X "variant" (JVal.s "outlined") (by rw [h11]; exact (jOr_absorb _ _).symm)]
  rw [Obj.set_fix X "tooltipOptions" (jOr (X "tooltipOptions") (JVal.obj [("position", jOr (X "tooltipPosition") (JVal.s "top")), ("event", jOr (X "tooltipEvent") (JVal.s "hover"))]))
    (by rw [h12, h8, h9]; simp [jOr_absorb])]

theorem fillTextVals_idem (o : Obj) :
    fillTextVals (fillTextVals o) = fillTextVals o := by
  have h1 : fillTextVals o "minLength" = jOr (o "minLength") (JVal.undefined) := by
    simp [fillTextVals, orSet, defSet, Obj.set, jOr_absorb]
  have h2 : fillTextVals o "maxLength" = jOr (o "maxLength") (JVal.undefined) := by
    simp [fillTextVals, orSet, defSet, Obj.set, jOr_absorb]
  have h3 : fillTextVals o "regex" = jOr (o "regex") (JVal.s "") := by
    simp [fillTextVals, orSet, defSet, Obj.set, jOr_absorb]
  have h4 : fillTextVals o "apiUrl" = jOr (o "apiUrl") (JVal.s "") := by
    simp [fillTextVals, orSet, defSet, Obj.set, jOr_absorb]
  generalize hX : fillTextVals o = X
  rw [hX] at h1 h2 h3 h4
  simp only [fillTextVals]
  rw [orSet_fix X "minLength" (JVal.undefined) (by rw [h1]; exact (jOr_absorb _ _).symm)]
  rw [orSet_fix X "maxLength" (JVal.undefined) (by rw [h2]; exact (jOr_absorb _ _).symm)]
  rw [orSet_fix X "regex" (JVal.s "") (by rw [h3]; exact (jOr_absorb _ _).symm)]
  rw [orSet_fix X "apiUrl" (JVal.s "") (by rw [h4]; exact (jOr_absorb _ _).symm)]

theorem fillInputMaskAttrs_idem (o : Obj) :
    fillInputMaskAttrs (fillInputMaskAttrs o) = fillInputMaskAttrs o := by
  have h1 : fillInputMaskAttrs o "placeholder" = jOr (o "placeholder") (JVal.s "Enter text...") := by
    simp [fillInputMaskAttrs, orSet, defSet, Obj.set, jOr_absorb]
  have h2 : fillInputMaskAttrs o "mask" = jOr (o "mask") (JVal.s "999-999-9999") := by
    simp [fillInputMaskAttrs, orSet, defSet, Obj.set, jOr_absorb]
  have h3 : fillInputMaskAttrs o "slotChar" = jOr (o "slotChar") (JVal.s "_") := by
    simp [fillInputMaskAttrs, orSet, defSet, Obj.set, jOr_absorb]
  have h4 : fillInputMaskAttrs o "helpText" = jOr (o "helpText") (JVal.s "") := by
    simp [fillInputMaskAttrs, orSet, defSet, Obj.set, jOr_absorb]
  have h5 : fillInputMaskAttrs o "floatLabel" = jDef (o "floatLabel") (JVal.b true) := by
    simp [fillInputMaskAttrs, orSet, defSet, Obj.set, jOr_absorb]
  have h6 : fillInputMaskAttrs o "disabled" = jOr (o "disabled") (JVal.b false) := by
    simp [fillInputMaskAttrs, orSet, defSet, Obj.set, jOr_absorb]
  have h7 : fillInputMaskAttrs o "icon" = jOr (o "icon") (JVal.s "") := by
    simp [fillInputMaskAttrs, orSet, defSet, Obj.set, jOr_absorb]
  have h8 : fillInputMaskAttrs o "autoClear" = jOr (o "autoClear") (JVal.b false) := by
    simp [fillInputMaskAttrs, orSet, defSet, Obj.set, jOr_absorb]
  have h9 : fillInputMaskAttrs o "variant" = jOr (o "variant") (JVal.s "outlined") := by
    simp [fillInputMaskAttrs, orSet, defSet, Obj.set, jOr_absorb]
  have h10 : fillInputMaskAttrs o "invalid" = jOr (o "invalid") (JVal.b false) := by
    simp [fillInputMaskAttrs, orSet, defSet, Obj.set, jOr_absorb]
  generalize hX : fillInputMaskAttrs o = X
  rw [hX] at h1 h2 h3 h4 h5 h6 h7 h8 h9 h10
  simp only [fillInputMaskAttrs]
  rw [orSet_fix X "placeholder" (JVal.s "Enter text...") (by rw [h1]; exact (jOr_absorb _ _).symm)]
  rw [orSet_fix X "mask" (JVal.s "999-999-9999") (by rw [h2]; exact (jOr_absorb _ _).symm)]
  rw [orSet_fix X "slotChar" (JVal.s "_") (by rw [h3]; exact (jOr_absorb _ _).symm)]
  rw [orSet_fix X "helpText" (JVal.s "") (by rw [h4]; exact (jOr_absorb _ _).symm)]
  rw [defSet_fix X "floatLabel" (JVal.b true) (by rw [h5]; exact (jDef_absorb _ _).symm)]
  rw [orSet_fix X "disabled" (JVal.b false) (by rw [h6]; exact (jOr_absorb _ _).symm)]
  rw [orSet_fix X "icon" (JVal.s "") (by rw [h7]; exact (jOr_absorb _ _).symm)]
  rw [orSet_fix X "autoClear" (JVal.b false) (by rw [h8]; exact (jOr_absorb _ _).symm)]
  rw [orSet_fix X "variant" (JVal.s "outlined") (by rw [h9]; exact (jOr_absorb _ _).symm)]
  rw [orSet_fix X "invalid" (JVal.b false) (by rw [h10]; exact (jOr_absorb _ _).symm)]

theorem fillInputMaskVals_idem (a v : Obj) :
    fillInputMaskVals a (fillInputMaskVals a v) = fillInputMaskVals a v := by
  have h1 : fillInputMaskVals a v "required" = jOr (v "required") (JVal.b false) := by
    simp [fillInputMaskVals, orSet, defSet, Obj.set, jOr_absorb]
  have h2 : fillInputMaskVals a v "mask" = jOr (v "mask") (a "mask") := by
    simp [fillInputMaskVals, orSet, defSet, Obj.set, jOr_absorb]
  have h3 : fillInputMaskVals a v "regex" = jOr (v "regex") (JVal.s "") := by
    simp [fillInputMaskVals, orSet, defSet, Obj.set, jOr_absorb]
  have h4 : fillInputMaskVals a v "unmask" = jDef (v "unmask") (JVal.b false) := by
    simp [fillInputMaskVals, orSet, defSet, Obj.set, jOr_absorb]
  generalize hX : fillInputMaskVals a v = X
  rw [hX] at h1 h2 h3 h4
  simp only [fillInputMaskVals]
  rw [orSet_fix X "required" (JVal.b false) (by rw [h1]; exact (jOr_absorb _ _).symm)]
  rw [Obj.set_fix X "mask" (jOr (X "mask") (a "mask"))
    (by rw [h2]; exact (jOr_absorb _ _).symm)]
  rw [orSet_fix X "regex" (JVal.s "") (by rw [h3]; exact (jOr_absorb _ _).symm)]
  rw [defSet_fix X "unmask" (JVal.b false) (by rw [h4]; exact (jDef_absorb _ _).symm)]

theorem fillRichTextAttrs_idem (o : Obj) :
    fillRichTextAttrs (fillRichTextAttrs o) = fillRichTextAttrs o := by
  have h1 : fillRichTextAttrs o "rows" = jOr (o "rows") (JVal.n 10) := by
    simp [fillRichTextAttrs, orSet, defSet, Obj.set, jOr_absorb]
  have h2 : fillRichTextAttrs o "cols" = jOr (o "cols") (JVal.n 80) := by
    simp [fillRichTextAttrs, orSet, defSet, Obj.set, jOr_absorb]
  have h3 : fillRichTextAttrs o "autoResize" = jDef (o "autoResize") (JVal.b true) := by
    simp [fillRichTextAttrs, orSet, defSet, Obj.set, jOr_absorb]
  have h4 : fillRichTextAttrs o "placeholder" = jOr (o "placeholder") (JVal.s "Enter rich text...") := by
    simp [fillRichTextAttrs, orSet, defSet, Obj.set, jOr_absorb]
  generalize hX : fillRichTextAttrs o = X
  rw [hX] at h1 h2 h3 h4
  simp only [fillRichTextAttrs]
  rw [orSet_fix X "rows" (JVal.n 10) (by rw [h1]; exact (jOr_absorb _ _).symm)]
  rw [orSet_fix X "cols" (JVal.n 80) (by rw [h2]; exact (jOr_absorb _ _).symm)]
  rw [defSet_fix X "autoResize" (JVal.b true) (by rw [h3]; exact (jDef_absorb _ _).symm)]
  rw [orSet_fix X "placeholder" (JVal.s "Enter rich text...") (by rw [h4]; exact (jOr_absorb _ _).symm)]

theorem fillNumberAttrs_idem (o : Obj) :
    fillNumberAttrs (fillNumberAttrs o) = fillNumberAttrs o := by
  have h1 : fillNumberAttrs o "placeholder" = jOr (o "placeholder") (JVal.s "Enter number...") := by
    simp [fillNumberAttrs, orSet, defSet, Obj.set, jOr_absorb]
  have h2 : fillNumberAttrs o "helpText" = jOr (o "helpText") (JVal.s "") := by
    simp [fillNumberAttrs, orSet, defSet, Obj.set, jOr_absorb]
  have h3 : fillNumberAttrs o "mode" = jOr (o "mode") (JVal.s "decimal") := by
    simp [fillNumberAttrs, orSet, defSet, Obj.set, jOr_absorb]
  have h4 : fillNumberAttrs o "locale" = jOr (o "locale") (JVal.s "en-US") := by
    simp [fillNumberAttrs, orSet, defSet, Obj.set, jOr_absorb]
  have h5 : fillNumberAttrs o "suffix" = jOr (o "suffix") (JVal.s "") := by
    simp [fillNumberAttrs, orSet, defSet, Obj.set, jOr_absorb]
  have h6 : fillNumberAttrs o "prefix" = jOr (o "prefix") (JVal.s "") := by
    simp [fillNumberAttrs, orSet, defSet, Obj.set, jOr_absorb]
  have h7 : fillNumberAttrs o "showButtons" = jOr (o "showButtons") (JVal.b false) := by
    simp [fillNumberAttrs, orSet, defSet, Obj.set, jOr_absorb]
  have h8 : fillNumberAttrs o "currency" = jOr (o "currency") (JVal.s "USD") := by
    simp [fillNumberAttrs, orSet, defSet, Obj.set, jOr_absorb]
  have h9 : fillNumberAttrs o "step" = jOr (o "step") (JVal.n 1) := by
    simp [fillNumberAttrs, orSet, defSet, Obj.set, jOr_absorb]
  have h10 : fillNumberAttrs o "min" = jOr (o "min") (JVal.undefined) := by
    simp [fillNumberAttrs, orSet, defSet, Obj.set, jOr_absorb]
  have h11 : fillNumberAttrs o "max" = jOr (o "max") (JVal.undefined) := by
    simp [fillNumberAttrs, orSet, defSet, Obj.set, jOr_absorb]
  have h12 : fillNumberAttrs o "minFractionDigits" = jOr (o "minFractionDigits") (JVal.n 0) := by
    simp [fillNumberAttrs, orSet, defSet, Obj.set, jOr_absorb]
  have h13 : fillNumberAttrs o "maxFractionDigits" = jOr (o "maxFractionDigits") (JVal.n 2) := by
    simp [fillNumberAttrs, orSet, defSet, Obj.set, jOr_absorb]
  have h14 : fillNumberAttrs o "incrementButtonIcon" = jOr (o "incrementButtonIcon") (JVal.s "plus") := by
    simp [fillNumberAttrs, orSet, defSet, Obj.set, jOr_absorb]
  have h15 : fillNumberAttrs o "decrementButtonIcon" = jOr (o "decrementButtonIcon") (JVal.s "minus") := by
    simp [fillNumberAttrs, orSet, defSet, Obj.set, jOr_absorb]
  have h16 : fillNumberAttrs o "decrementButtonClassName" = jOr (o "decrementButtonClassName") (JVal.s "") := by
    simp [fillNumberAttrs, orSet, defSet, Obj.set, jOr_absorb]
  have h17 : fillNumberAttrs o "incrementButtonClassName" = jOr (o "incrementButtonClassName") (JVal.s "") := by
    simp [fillNumberAttrs, orSet, defSet, Obj.set, jOr_absorb]
  have h18 : fillNumberAttrs o "buttonLayout" = jOr (o "buttonLayout") (JVal.s "stacked") := by
    simp [fillNumberAttrs, orSet, defSet, Obj.set, jOr_absorb]
  have h19 : fillNumberAttrs o "autoClear" = jOr (o "autoClear") (JVal.b false) := by
    simp [fillNumberAttrs, orSet, defSet, Obj.set, jOr_absorb]
  have h20 : fillNumberAttrs o "icon" = jOr (o "icon") (JVal.s "") := by
    simp [fillNumberAttrs, orSet, defSet, Obj.set, jOr_absorb]
  have h21 : fillNumberAttrs o "floatLabel" = jDef (o "floatLabel") (JVal.b true) := by
    simp [fillNumberAttrs, orSet, defSet, Obj.set, jOr_absorb]
  have h22 : fillNumberAttrs o "variant" = jOr (o "variant") (JVal.s "outlined") := by
    simp [fillNumberAttrs, orSet, defSet, Obj.set, jOr_absorb]
  have h23 : fillNumberAttrs o "invalid" = jOr (o "invalid") (JVal.b false) := by
    simp [fillNumberAttrs, orSet, defSet, Obj.set, jOr_absorb]
  have h24 : fillNumberAttrs o "disabled" = jOr (o "disabled") (JVal.b false) := by
    simp [fillNumberAttrs, orSet, defSet, Obj.set, jOr_absorb]
  have h25 : fillNumberAttrs o "useGrouping" = jDef (o "useGrouping") (JVal.b true) := by
    simp [fillNumberAttrs, orSet, defSet, Obj.set, jOr_absorb]
  generalize hX : fillNumberAttrs o = X
  rw [hX] at h1 h2 h3 h4 h5 h6 h7 h8 h9 h10 h11 h12 h13 h14 h15 h16 h17 h18 h19 h20 h21 h22 h23 h24 h25
  simp only [fillNumberAttrs]
  rw [orSet_fix X "placeholder" (JVal.s "Enter number...") (by rw [h1]; exact (jOr_absorb _ _).symm)]
  rw [orSet_fix X "helpText" (JVal.s "") (by rw [h2]; exact (jOr_absorb _ _).symm)]
  rw [orSet_fix X "mode" (JVal.s "decimal") (by rw [h3]; exact (jOr_absorb _ _).symm)]
  rw [orSet_fix X "locale" (JVal.s "en-US") (by rw [h4]; exact (jOr_absorb _ _).symm)]
  rw [orSet_fix X "suffix" (JVal.s "") (by rw [h5]; exact (jOr_absorb _ _).symm)]
  rw [orSet_fix X "prefix" (JVal.s "") (by rw [h6]; exact (jOr_absorb _ _).symm)]
  rw [orSet_fix X "showButtons" (JVal.b false) (by rw [h7]; exact (jOr_absorb _ _).symm)]
  rw [orSet_fix X "currency" (JVal.s "USD") (by rw [h8]; exact (jOr_absorb _ _).symm)]
  rw [orSet_fix X "step" (JVal.n 1) (by rw [h9]; exact (jOr_absorb _ _).symm)]
  rw [orSet_fix X "min" (JVal.undefined) (by rw [h10]; exact (jOr_absorb _ _).symm)]
  rw [orSet_fix X "max" (JVal.undefined) (by rw [h11]; exact (jOr_absorb _ _).symm)]
  rw [orSet_fix X "minFractionDigits" (JVal.n 0) (by rw [h12]; exact (jOr_absorb _ _).symm)]
  rw [orSet_fix X "maxFractionDigits" (JVal.n 2) (by rw [h13]; exact (jOr_absorb _ _).symm)]
  rw [orSet_fix X "incrementButtonIcon" (JVal.s "plus") (by rw [h14]; exact (jOr_absorb _ _).symm)]
  rw [orSet_fix X "decrementButtonIcon" (JVal.s "minus") (by rw [h15]; exact (jOr_absorb _ _).symm)]
  rw [orSet_fix X "decrementButtonClassName" (JVal.s "") (by rw [h16]; exact (jOr_absorb _ _).symm)]
  rw [orSet_fix X "incrementButtonClassName" (JVal.s "") (by rw [h17]; exact (jOr_absorb _ _).symm)]
  rw [orSet_fix X "buttonLayout" (JVal.s "stacked") (by rw [h18]; exact (jOr_absorb _ _).symm)]
  rw [orSet_fix X "autoClear" (JVal.b false) (by rw [h19]; exact (jOr_absorb _ _).symm)]
  rw [orSet_fix X "icon" (JVal.s "") (by rw [h20]; exact (jOr_absorb _ _).symm)]
  rw [defSet_fix X "floatLabel" (JVal.b true) (by rw [h21]; exact (jDef_absorb _ _).symm)]
  rw [orSet_fix X "variant" (JVal.s "outlined") (by rw [h22]; exact (jOr_absorb _ _).symm)]
  rw [orSet_fix X "invalid" (JVal.b false) (by rw [h23]; exact (jOr_absorb _ _).symm)]
  rw [orSet_fix X "disabled" (JVal.b false) (by rw [h24]; exact (jOr_absorb _ _).symm)]
  rw [defSet_fix X "useGrouping" (JVal.b true) (by rw [h25]; exact (jDef_absorb _ _).symm)]

theorem fillNumberVals_idem (o : Obj) :
    fillNumberVals (fillNumberVals o) = fillNumberVals o := by
  have h1 : fillNumberVals o "required" = jOr (o "required") (JVal.b false) := by
    simp [fillNumberVals, orSet, defSet, Obj.set, jOr_absorb]
  have h2 : fillNumberVals o "minValue" = jOr (o "minValue") (JVal.undefined) := by
    simp [fillNumberVals, orSet, defSet, Obj.set, jOr_absorb]
  have h3 : fillNumberVals o "maxValue" = jOr (o "maxValue") (JVal.undefined) := by
    simp [fillNumberVals, orSet, defSet, Obj.set, jOr_absorb]
  have h4 : fillNumberVals o "minFractionDigits" = jOr (o "minFractionDigits") (JVal.undefined) := by
    simp [fillNumberVals, orSet, defSet, Obj.set, jOr_absorb]
  have h5 : fillNumberVals o "maxFractionDigits" = jOr (o "maxFractionDigits") (JVal.undefined) := by
    simp [fillNumberVals, orSet, defSet, Obj.set, jOr_absorb]
  generalize hX : fillNumberVals o = X
  rw [hX] at h1 h2 h3 h4 h5
  simp only [fillNumberVals]
  rw [orSet_fix X "required" (JVal.b false) (by rw [h1]; exact (jOr_absorb _ _).symm)]
  rw [orSet_fix X "minValue" (JVal.undefined) (by rw [h2]; exact (jOr_absorb _ _).symm)]
  rw [orSet_fix X "maxValue" (JVal.undefined) (by rw [h3]; exact (jOr_absorb _ _).symm)]
  rw [orSet_fix X "minFractionDigits" (JVal.undefined) (by rw [h4]; exact (jOr_absorb _ _).symm)]
  rw [orSet_fix X "maxFractionDigits" (JVal.undefined) (by rw [h5]; exact (jOr_absorb _ _).symm)]

theorem fillDateAttrs_idem (o : Obj) :
    fillDateAttrs (fillDateAttrs o) = fillDateAttrs o := by
  have h1 : fillDateAttrs o "dateFormat" = jOr (o "dateFormat") (JVal.s "mm/dd/yy") := by
    simp [fillDateAttrs, orSet, defSet, Obj.set, jOr_absorb]
  have h2 : fillDateAttrs o "locale" = jOr (o "locale") (JVal.s "en-US") := by
    simp [fillDateAttrs, orSet, defSet, Obj.set, jOr_absorb]
  have h3 : fillDateAttrs o "showIcon" = jDef (o "showIcon") (JVal.b true) := by
    simp [fillDateAttrs, orSet, defSet, Obj.set, jOr_absorb]
  have h4 : fillDateAttrs o "minDate" = jOr (o "minDate") (JVal.s "") := by
    simp [fillDateAttrs, orSet, defSet, Obj.set, jOr_absorb]
  have h5 : fillDateAttrs o "maxDate" = jOr (o "maxDate") (JVal.s "") := by
    simp [fillDateAttrs, orSet, defSet, Obj.set, jOr_absorb]
  have h6 : fillDateAttrs o "readOnlyInput" = jOr (o "readOnlyInput") (JVal.b false) := by
    simp [fillDateAttrs, orSet, defSet, Obj.set, jOr_absorb]
  have h7 : fillDateAttrs o "selectionMode" = jOr (o "selectionMode") (JVal.s "single") := by
    simp [fillDateAttrs, orSet, defSet, Obj.set, jOr_absorb]
  have h8 : fillDateAttrs o "hideOnRangeSelection" = jOr (o "hideOnRangeSelection") (JVal.b false) := by
    simp [fillDateAttrs, orSet, defSet, Obj.set, jOr_absorb]
  have h9 : fillDateAttrs o "showButtonBar" = jDef (o "showButtonBar") (JVal.b true) := by
    simp [fillDateAttrs, orSet, defSet, Obj.set, jOr_absorb]
  have h10 : fillDateAttrs o "view" = jOr (o "view") (JVal.s "month") := by
    simp [fillDateAttrs, orSet, defSet, Obj.set, jOr_absorb]
  have h11 : fillDateAttrs o "numberOfMonths" = jOr (o "numberOfMonths") (JVal.n 1) := by
    simp [fillDateAttrs, orSet, defSet, Obj.set, jOr_absorb]
  have h12 : fillDateAttrs o "showTime" = jOr (o "showTime") (JVal.b false) := by
    simp [fillDateAttrs, orSet, defSet, Obj.set, jOr_absorb]
  have h13 : fillDateAttrs o "hourFormat" = jOr (o "hourFormat") (JVal.s "24") := by
    simp [fillDateAttrs, orSet, defSet, Obj.set, jOr_absorb]
  have h14 : fillDateAttrs o "timeOnly" = jOr (o "timeOnly") (JVal.b false) := by
    simp [fillDateAttrs, orSet, defSet, Obj.set, jOr_absorb]
  have h15 : fillDateAttrs o "variant" = jOr (o "variant") (JVal.s "outlined") := by
    simp [fillDateAttrs, orSet, defSet, Obj.set, jOr_absorb]
  have h16 : fillDateAttrs o "icon" = jOr (o "icon") (JVal.s "") := by
    simp [fillDateAttrs, orSet, defSet, Obj.set, jOr_absorb]
  have h17 : fillDateAttrs o "floatLabel" = jDef (o "floatLabel") (JVal.b true) := by
    simp [fillDateAttrs, orSet, defSet, Obj.set, jOr_absorb]
  have h18 : fillDateAttrs o "invalid" = jOr (o "invalid") (JVal.b false) := by
    simp [fillDateAttrs, orSet, defSet, Obj.set, jOr_absorb]
  have h19 : fillDateAttrs o "disabled" = jOr (o "disabled") (JVal.b false) := by
    simp [fillDateAttrs, orSet, defSet, Obj.set, jOr_absorb]
  have h20 : fillDateAttrs o "inline" = jOr (o "inline") (JVal.b false) := by
    simp [fillDateAttrs, orSet, defSet, Obj.set, jOr_absorb]
  have h21 : fillDateAttrs o "showWeek" = jOr (o "showWeek") (JVal.b false) := by
    simp [fillDateAttrs, orSet, defSet, Obj.set, jOr_absorb]
  generalize hX : fillDateAttrs o = X
  rw [hX] at h1 h2 h3 h4 h5 h6 h7 h8 h9 h10 h11 h12 h13 h14 h15 h16 h17 h18 h19 h20 h21
  simp only [fillDateAttrs]
  rw [orSet_fix X "dateFormat" (JVal.s "mm/dd/yy") (by rw [h1]; exact (jOr_absorb _ _).symm)]
  rw [orSet_fix X "locale" (JVal.s "en-US") (by rw [h2]; exact (jOr_absorb _ _).symm)]
  rw [defSet_fix X "showIcon" (JVal.b true) (by rw [h3]; exact (jDef_absorb _ _).symm)]
  rw [orSet_fix X "minDate" (JVal.s "") (by rw [h4]; exact (jOr_absorb _ _).symm)]
  rw [orSet_fix X "maxDate" (JVal.s "") (by rw [h5]; exact (jOr_absorb _ _).symm)]
  rw [orSet_fix X "readOnlyInput" (JVal.b false) (by rw [h6]; exact (jOr_absorb _ _).symm)]
  rw [orSet_fix X "selectionMode" (JVal.s "single") (by rw [h7]; exact (jOr_absorb _ _).symm)]
  rw [orSet_fix X "hideOnRangeSelection" (JVal.b false) (by rw [h8]; exact (jOr_absorb _ _).symm)]
  rw [defSet_fix X "showButtonBar" (JVal.b true) (by rw [h9]; exact (jDef_absorb _ _).symm)]
  rw [orSet_fix X "view" (JVal.s "month") (by rw [h10]; exact (jOr_absorb _ _).symm)]
  rw [orSet_fix X "numberOfMonths" (JVal.n 1) (by rw [h11]; exact (jOr_absorb _ _).symm)]
  rw [orSet_fix X "showTime" (JVal.b false) (by rw [h12]; exact (jOr_absorb _ _).symm)]
  rw [orSet_fix X "hourFormat" (JVal.s "24") (by rw [h13]; exact (jOr_absorb _ _).symm)]
  rw [orSet_fix X "timeOnly" (JVal.b false) (by rw [h14]; exact (jOr_absorb _ _).symm)]
  rw [orSet_fix X "variant" (JVal.s "outlined") (by rw [h15]; exact (jOr_absorb _ _).symm)]
  rw [orSet_fix X "icon" (JVal.s "") (by rw [h16]; exact (jOr_absorb _ _).symm)]
  rw [defSet_fix X "floatLabel" (JVal.b true) (by rw [h17]; exact (jDef_absorb _ _).symm)]
  rw [orSet_fix X "invalid" (JVal.b false) (by rw [h18]; exact (jOr_absorb _ _).symm)]
  rw [orSet_fix X "disabled" (JVal.b false) (by rw [h19]; exact (jOr_absorb _ _).symm)]
  rw [orSet_fix X "inline" (JVal.b false) (by rw [h20]; exact (jOr_absorb _ _).symm)]
  rw [orSet_fix X "showWeek" (JVal.b false) (by rw [h21]; exact (jOr_absorb _ _).symm)]

theorem fillCommonTop_idem (t : Obj) :
    fillCommonTop (fillCommonTop t) = fillCommonTop t := by
  have h1 : fillCommonTop t "dependOn" = jOr (t "dependOn") (JVal.s "") := by
    simp [fillCommonTop, orSet, defSet, Obj.set, jOr_absorb]
  have h2 : fillCommonTop t "uniqueId" = jOr (t "uniqueId") (JVal.s "") := by
    simp [fillCommonTop, orSet, defSet, Obj.set, jOr_absorb]
  have h3 : fillCommonTop t "displayName" = jOr (t "displayName") (t "name") := by
    simp [fillCommonTop, orSet, defSet, Obj.set, jOr_absorb]
  have h4 : fillCommonTop t "isVisible" = jDef (t "isVisible") (JVal.b true) := by
    simp [fillCommonTop, orSet, defSet, Obj.set, jOr_absorb]
  have hnm : fillCommonTop t "name" = t "name" := by
    simp [fillCommonTop, orSet, defSet, Obj.set]
  generalize hX : fillCommonTop t = X
  rw [hX] at h1 h2 h3 h4 hnm
  simp only [fillCommonTop]
  rw [orSet_fix X "dependOn" (JVal.s "") (by rw [h1]; exact (jOr_absorb _ _).symm)]
  rw [orSet_fix X "uniqueId" (JVal.s "") (by rw [h2]; exact (jOr_absorb _ _).symm)]
  rw [Obj.set_fix X "displayName" (jOr (X "displayName") (X "name"))
    (by rw [h3, hnm]; exact (jOr_absorb _ _).symm)]
  rw [defSet_fix X "isVisible" (JVal.b true) (by rw [h4]; exact (jDef_absorb _ _).symm)]

theorem fillJsonAttrs_idem (o : Obj) :
    fillJsonAttrs (fillJsonAttrs o) = fillJsonAttrs o := by
  have h1 : fillJsonAttrs o "rows" = jOr (o "rows") (JVal.n 10) := by
    simp [fillJsonAttrs, orSet, defSet, Obj.set, jOr_absorb]
  have h2 : fillJsonAttrs o "autoResize" = jDef (o "autoResize") (JVal.b true) := by
    simp [fillJsonAttrs, orSet, defSet, Obj.set, jOr_absorb]
  generalize hX : fillJsonAttrs o = X
  rw [hX] at h1 h2
  simp only [fillJsonAttrs]
  rw [orSet_fix X "rows" (JVal.n 10) (by rw [h1]; exact (jOr_absorb _ _).symm)]
  rw [defSet_fix X "autoResize" (JVal.b true) (by rw [h2]; exact (jDef_absorb _ _).symm)]

theorem fillEmailAttrs_idem (o : Obj) :
    fillEmailAttrs (fillEmailAttrs o) = fillEmailAttrs o := by
  have h1 : fillEmailAttrs o "placeholder" = jOr (o "placeholder") (JVal.s "Enter email...") := by
    simp [fillEmailAttrs, orSet, defSet, Obj.set, jOr_absorb]
  have h2 : fillEmailAttrs o "keyfilter" = jOr (o "keyfilter") (JVal.s "email") := by
    simp [fillEmailAttrs, orSet, defSet, Obj.set, jOr_absorb]
  generalize hX : fillEmailAttrs o = X
  rw [hX] at h1 h2
  simp only [fillEmailAttrs]
  rw [orSet_fix X "placeholder" (JVal.s "Enter email...") (by rw [h1]; exact (jOr_absorb _ _).symm)]
  rw [orSet_fix X "keyfilter" (JVal.s "email") (by rw [h2]; exact (jOr_absorb _ _).symm)]

theorem fillPasswordAttrs_idem (o : Obj) :
    fillPasswordAttrs (fillPasswordAttrs o) = fillPasswordAttrs o := by
  have h1 : fillPasswordAttrs o "promptLabel" = jOr (o "promptLabel") (JVal.s "Enter a password") := by
    simp [fillPasswordAttrs, orSet, defSet, Obj.set, jOr_absorb]
  have h2 : fillPasswordAttrs o "icon" = jOr (o "icon") (JVal.s "") := by
    simp [fillPasswordAttrs, orSet, defSet, Obj.set, jOr_absorb]
  have h3 : fillPasswordAttrs o "variant" = jOr (o "variant") (JVal.s "outlined") := by
    simp [fillPasswordAttrs, orSet, defSet, Obj.set, jOr_absorb]
  have h4 : fillPasswordAttrs o "weakLabel" = jOr (o "weakLabel") (JVal.s "Weak") := by
    simp [fillPasswordAttrs, orSet, defSet, Obj.set, jOr_absorb]
  have h5 : fillPasswordAttrs o "mediumLabel" = jOr (o "mediumLabel") (JVal.s "Medium") := by
    simp [fillPasswordAttrs, orSet, defSet, Obj.set, jOr_absorb]
  have h6 : fillPasswordAttrs o "strongLabel" = jOr (o "strongLabel") (JVal.s "Strong") := by
    simp [fillPasswordAttrs, orSet, defSet, Obj.set, jOr_absorb]
  have h7 : fillPasswordAttrs o "feedback" = jDef (o "feedback") (JVal.b true) := by
    simp [fillPasswordAttrs, orSet, defSet, Obj.set, jOr_absorb]
  have h8 : fillPasswordAttrs o "toggleMask" = jDef (o "toggleMask") (JVal.b true) := by
    simp [fillPasswordAttrs, orSet, defSet, Obj.set, jOr_absorb]
  have h9 : fillPasswordAttrs o "floatLabel" = jDef (o "floatLabel") (JVal.b true) := by
    simp [fillPasswordAttrs, orSet, defSet, Obj.set, jOr_absorb]
  have h10 : fillPasswordAttrs o "invalid" = jOr (o "invalid") (JVal.b false) := by
    simp [fillPasswordAttrs, orSet, defSet, Obj.set, jOr_absorb]
  have h11 : fillPasswordAttrs o "disabled" = jOr (o "disabled") (JVal.b false) := by
    simp [fillPasswordAttrs, orSet, defSet, Obj.set, jOr_absorb]
  generalize hX : fillPasswordAttrs o = X
  rw [hX] at h1 h2 h3 h4 h5 h6 h7 h8 h9 h10 h11
  simp only [fillPasswordAttrs]
  rw [orSet_fix X "promptLabel" (JVal.s "Enter a password") (by rw [h1]; exact (jOr_absorb _ _).symm)]
  rw [orSet_fix X "icon" (JVal.s "") (by rw [h2]; exact (jOr_absorb _ _).symm)]
  rw [orSet_fix X "variant" (JVal.s "outlined") (by rw [h3]; exact (jOr_absorb _ _).symm)]
  rw [orSet_fix X "weakLabel" (JVal.s "Weak") (by rw [h4]; exact (jOr_absorb _ _).symm)]
  rw [orSet_fix X "mediumLabel" (JVal.s "Medium") (by rw [h5]; exact (jOr_absorb _ _).symm)]
  rw [orSet_fix X "strongLabel" (JVal.s "Strong") (by rw [h6]; exact (jOr_absorb _ _).symm)]
  rw [defSet_fix X "feedback" (JVal.b true) (by rw [h7]; exact (jDef_absorb _ _).symm)]
  rw [defSet_fix X "toggleMask" (JVal.b true) (by rw [h8]; exact (jDef_absorb _ _).symm)]
  rw [defSet_fix X "floatLabel" (JVal.b true) (by rw [h9]; exact (jDef_absorb _ _).symm)]
  rw [orSet_fix X "invalid" (JVal.b false) (by rw [h10]; exact (jOr_absorb _ _).symm)]
  rw [orSet_fix X "disabled" (JVal.b false) (by rw [h11]; exact (jOr_absorb _ _).symm)]

theorem fillPasswordVals_idem (o : Obj) :
    fillPasswordVals (fillPasswordVals o) = fillPasswordVals o := by
  have h1 : fillPasswordVals o "required" = jOr (o "required") (JVal.b false) := by
    simp [fillPasswordVals, orSet, defSet, Obj.set, jOr_absorb]
  have h2 : fillPasswordVals o "minLength" = jOr (o "minLength") (JVal.undefined) := by
    simp [fillPasswordVals, orSet, defSet, Obj.set, jOr_absorb]
  have h3 : fillPasswordVals o "maxLength" = jOr (o "maxLength") (JVal.undefined) := by
    simp [fillPasswordVals, orSet, defSet, Obj.set, jOr_absorb]
  have h4 : fillPasswordVals o "regex" = jOr (o "regex") (JVal.s "") := by
    simp [fillPasswordVals, orSet, defSet, Obj.set, jOr_absorb]
  generalize hX : fillPasswordVals o = X
  rw [hX] at h1 h2 h3 h4
  simp only [fillPasswordVals]
  rw [orSet_fix X "required" (JVal.b false) (by rw [h1]; exact (jOr_absorb _ _).symm)]
  rw [orSet_fix X "minLength" (JVal.undefined) (by rw [h2]; exact (jOr_absorb _ _).symm)]
  rw [orSet_fix X "maxLength" (JVal.undefined) (by rw [h3]; exact (jOr_absorb _ _).symm)]
  rw [orSet_fix X "regex" (JVal.s "") (by rw [h4]; exact (jOr_absorb _ _).symm)]

theorem fillEnumerationAttrs_idem (o : Obj) :
    fillEnumerationAttrs (fillEnumerationAttrs o) = fillEnumerationAttrs o := by
  have h1 : fillEnumerationAttrs o "dropdown" = jDef (o "dropdown") (JVal.b true) := by
    simp [fillEnumerationAttrs, orSet, defSet, Obj.set, jOr_absorb]
  have h2 : fillEnumerationAttrs o "multiple" = jOr (o "multiple") (JVal.b false) := by
    simp [fillEnumerationAttrs, orSet, defSet, Obj.set, jOr_absorb]
  have h3 : fillEnumerationAttrs o "filter" = jDef (o "filter") (JVal.b true) := by
    simp [fillEnumerationAttrs, orSet, defSet, Obj.set, jOr_absorb]
  have h4 : fillEnumerationAttrs o "showClear" = jDef (o "showClear") (JVal.b true) := by
    simp [fillEnumerationAttrs, orSet, defSet, Obj.set, jOr_absorb]
  generalize hX : fillEnumerationAttrs o = X
  rw [hX] at h1 h2 h3 h4
  simp only [fillEnumerationAttrs]
  rw [defSet_fix X "dropdown" (JVal.b true) (by rw [h1]; exact (jDef_absorb _ _).symm)]
  rw [orSet_fix X "multiple" (JVal.b false) (by rw [h2]; exact (jOr_absorb _ _).symm)]
  rw [defSet_fix X "filter" (JVal.b true) (by rw [h3]; exact (jDef_absorb _ _).symm)]
  rw [defSet_fix X "showClear" (JVal.b true) (by rw [h4]; exact (jDef_absorb _ _).symm)]

theorem fillMediaAttrs_idem (o : Obj) :
    fillMediaAttrs (fillMediaAttrs o) = fillMediaAttrs o := by
  have h1 : fillMediaAttrs o "mode" = jOr (o "mode") (JVal.s "basic") := by
    simp [fillMediaAttrs, orSet, defSet, Obj.set, jOr_absorb]
  have h2 : fillMediaAttrs o "accept" = jOr (o "accept") (JVal.s "image/*") := by
    simp [fillMediaAttrs, orSet, defSet, Obj.set, jOr_absorb]
  have h3 : fillMediaAttrs o "maxFileSize" = jOr (o "maxFileSize") (JVal.n 10000000) := by
    simp [fillMediaAttrs, orSet, defSet, Obj.set, jOr_absorb]
  have h4 : fillMediaAttrs o "auto" = jDef (o "auto") (JVal.b true) := by
    simp [fillMediaAttrs, orSet, defSet, Obj.set, jOr_absorb]
  have h5 : fillMediaAttrs o "chooseLabel" = jOr (o "chooseLabel") (JVal.s "Choose") := by
    simp [fillMediaAttrs, orSet, defSet, Obj.set, jOr_absorb]
  generalize hX : fillMediaAttrs o = X
  rw [hX] at h1 h2 h3 h4 h5
  simp only [fillMediaAttrs]
  rw [orSet_fix X "mode" (JVal.s "basic") (by rw [h1]; exact (jOr_absorb _ _).symm)]
  rw [orSet_fix X "accept" (JVal.s "image/*") (by rw [h2]; exact (jOr_absorb _ _).symm)]
  rw [orSet_fix X "maxFileSize" (JVal.n 10000000) (by rw [h3]; exact (jOr_absorb _ _).symm)]
  rw [defSet_fix X "auto" (JVal.b true) (by rw [h4]; exact (jDef_absorb _ _).symm)]
  rw [orSet_fix X "chooseLabel" (JVal.s "Choose") (by rw [h5]; exact (jOr_absorb _ _).symm)]

theorem fillRelationAttrs_idem (o : Obj) :
    fillRelationAttrs (fillRelationAttrs o) = fillRelationAttrs o := by
  have h1 : fillRelationAttrs o "dropdown" = jDef (o "dropdown") (JVal.b true) := by
    simp [fillRelationAttrs, orSet, defSet, Obj.set, jOr_absorb]
  have h2 : fillRelationAttrs o "filter" = jDef (o "filter") (JVal.b true) := by
    simp [fillRelationAttrs, orSet, defSet, Obj.set, jOr_absorb]
  generalize hX : fillRelationAttrs o = X
  rw [hX] at h1 h2
  simp only [fillRelationAttrs]
  rw [defSet_fix X "dropdown" (JVal.b true) (by rw [h1]; exact (jDef_absorb _ _).symm)]
  rw [defSet_fix X "filter" (JVal.b true) (by rw [h2]; exact (jDef_absorb _ _).symm)]

theorem fillAutocompleteAttrs_idem (o : Obj) :
    fillAutocompleteAttrs (fillAutocompleteAttrs o) = fillAutocompleteAttrs o := by
  have h1 : fillAutocompleteAttrs o "placeholder" = jOr (o "placeholder") (JVal.s "Start typing...") := by
    simp [fillAutocompleteAttrs, orSet, defSet, Obj.set, jOr_absorb]
  have h2 : fillAutocompleteAttrs o "icon" = jOr (o "icon") (JVal.s "") := by
    simp [fillAutocompleteAttrs, orSet, defSet, Obj.set, jOr_absorb]
  have h3 : fillAutocompleteAttrs o "variant" = jOr (o "variant") (JVal.s "outlined") := by
    simp [fillAutocompleteAttrs, orSet, defSet, Obj.set, jOr_absorb]
  have h4 : fillAutocompleteAttrs o "dropdown" = jDef (o "dropdown") (JVal.b true) := by
    simp [fillAutocompleteAttrs, orSet, defSet, Obj.set, jOr_absorb]
  have h5 : fillAutocompleteAttrs o "object" = jOr (o "object") (JVal.b false) := by
    simp [fillAutocompleteAttrs, orSet, defSet, Obj.set, jOr_absorb]
  have h6 : fillAutocompleteAttrs o "group" = jOr (o "group") (JVal.b false) := by
    simp [fillAutocompleteAttrs, orSet, defSet, Obj.set, jOr_absorb]
  have h7 : fillAutocompleteAttrs o "forceSelection" = jOr (o "forceSelection") (JVal.b false) := by
    simp [fillAutocompleteAttrs, orSet, defSet, Obj.set, jOr_absorb]
  have h8 : fillAutocompleteAttrs o "multiple" = jOr (o "multiple") (JVal.b false) := by
    simp [fillAutocompleteAttrs, orSet, defSet, Obj.set, jOr_absorb]
  have h9 : fillAutocompleteAttrs o "floatLabel" = jDef (o "floatLabel") (JVal.b true) := by
    simp [fillAutocompleteAttrs, orSet, defSet, Obj.set, jOr_absorb]
  have h10 : fillAutocompleteAttrs o "invalid" = jOr (o "invalid") (JVal.b false) := by
    simp [fillAutocompleteAttrs, orSet, defSet, Obj.set, jOr_absorb]
  have h11 : fillAutocompleteAttrs o "disabled" = jOr (o "disabled") (JVal.b false) := by
    simp [fillAutocompleteAttrs, orSet, defSet, Obj.set, jOr_absorb]
  generalize hX : fillAutocompleteAttrs o = X
  rw [hX] at h1 h2 h3 h4 h5 h6 h7 h8 h9 h10 h11
  simp only [fillAutocompleteAttrs]
  rw [orSet_fix X "placeholder" (JVal.s "Start typing...") (by rw [h1]; exact (jOr_absorb _ _).symm)]
  rw [orSet_fix X "icon" (JVal.s "") (by rw [h2]; exact (jOr_absorb _ _).symm)]
  rw [orSet_fix X "variant" (JVal.s "outlined") (by rw [h3]; exact (jOr_absorb _ _).symm)]
  rw [defSet_fix X "dropdown" (JVal.b true) (by rw [h4]; exact (jDef_absorb _ _).symm)]
  rw [orSet_fix X "object" (JVal.b false) (by rw [h5]; exact (jOr_absorb _ _).symm)]
  rw [orSet_fix X "group" (JVal.b false) (by rw [h6]; exact (jOr_absorb _ _).symm)]
  rw [orSet_fix X "forceSelection" (JVal.b false) (by rw [h7]; exact (jOr_absorb _ _).symm)]
  rw [orSet_fix X "multiple" (JVal.b false) (by rw [h8]; exact (jOr_absorb _ _).symm)]
  rw [defSet_fix X "floatLabel" (JVal.b true) (by rw [h9]; exact (jDef_absorb _ _).symm)]
  rw [orSet_fix X "invalid" (JVal.b false) (by rw [h10]; exact (jOr_absorb _ _).symm)]
  rw [orSet_fix X "disabled" (JVal.b false) (by rw [h11]; exact (jOr_absorb _ _).symm)]

theorem fillCascadeSelectAttrs_idem (o : Obj) :
    fillCascadeSelectAttrs (fillCascadeSelectAttrs o) = fillCascadeSelectAttrs o := by
  have h1 : fillCascadeSelectAttrs o "placeholder" = jOr (o "placeholder") (JVal.s "Select a value...") := by
    simp [fillCascadeSelectAttrs, orSet, defSet, Obj.set, jOr_absorb]
  have h2 : fillCascadeSelectAttrs o "variant" = jOr (o "variant") (JVal.s "outlined") := by
    simp [fillCascadeSelectAttrs, orSet, defSet, Obj.set, jOr_absorb]
  have h3 : fillCascadeSelectAttrs o "optionLabel" = jOr (o "optionLabel") (JVal.s "label") := by
    simp [fillCascadeSelectAttrs, orSet, defSet, Obj.set, jOr_absorb]
  have h4 : fillCascadeSelectAttrs o "optionValue" = jOr (o "optionValue") (JVal.s "value") := by
    simp [fillCascadeSelectAttrs, orSet, defSet, Obj.set, jOr_absorb]
  have h5 : fillCascadeSelectAttrs o "optionGroupLabel" = jOr (o "optionGroupLabel") (JVal.s "label") := by
    simp [fillCascadeSelectAttrs, orSet, defSet, Obj.set, jOr_absorb]
  have h6 : fillCascadeSelectAttrs o "optionGroupChildren" = jOr (o "optionGroupChildren") (JVal.s "items") := by
    simp [fillCascadeSelectAttrs, orSet, defSet, Obj.set, jOr_absorb]
  have h7 : fillCascadeSelectAttrs o "options" = jOr (o "options") (JVal.arr []) := by
    simp [fillCascadeSelectAttrs, orSet, defSet, Obj.set, jOr_absorb]
  have h8 : fillCascadeSelectAttrs o "floatLabel" = jDef (o "floatLabel") (JVal.b true) := by
    simp [fillCascadeSelectAttrs, orSet, defSet, Obj.set, jOr_absorb]
  have h9 : fillCascadeSelectAttrs o "invalid" = jOr (o "invalid") (JVal.b false) := by
    simp [fillCascadeSelectAttrs, orSet, defSet, Obj.set, jOr_absorb]
  have h10 : fillCascadeSelectAttrs o "disabled" = jOr (o "disabled") (JVal.b false) := by
    simp [fillCascadeSelectAttrs, orSet, defSet, Obj.set, jOr_absorb]
  generalize hX : fillCascadeSelectAttrs o = X
  rw [hX] at h1 h2 h3 h4 h5 h6 h7 h8 h9 h10
  simp only [fillCascadeSelectAttrs]
  rw [orSet_fix X "placeholder" (JVal.s "Select a value...") (by rw [h1]; exact (jOr_absorb _ _).symm)]
  rw [orSet_fix X "variant" (JVal.s "outlined") (by rw [h2]; exact (jOr_absorb _ _).symm)]
  rw [orSet_fix X "optionLabel" (JVal.s "label") (by rw [h3]; exact (jOr_absorb _ _).symm)]
  rw [orSet_fix X "optionValue" (JVal.s "value") (by rw [h4]; exact (jOr_absorb _ _).symm)]
  rw [orSet_fix X "optionGroupLabel" (JVal.s "label") (by rw [h5]; exact (jOr_absorb _ _).symm)]
  rw [orSet_fix X "optionGroupChildren" (JVal.s "items") (by rw [h6]; exact (jOr_absorb _ _).symm)]
  rw [orSet_fix X "options" (JVal.arr []) (by rw [h7]; exact (jOr_absorb _ _).symm)]
  rw [defSet_fix X "floatLabel" (JVal.b true) (by rw [h8]; exact (jDef_absorb _ _).symm)]
  rw [orSet_fix X "invalid" (JVal.b false) (by rw [h9]; exact (jOr_absorb _ _).symm)]
  rw [orSet_fix X "disabled" (JVal.b false) (by rw [h10]; exact (jOr_absorb _ _).symm)]

theorem fillDropdownAttrs_idem (o : Obj) :
    fillDropdownAttrs (fillDropdownAttrs o) = fillDropdownAttrs o := by
  have h1 : fillDropdownAttrs o "placeholder" = jOr (o "placeholder") (JVal.s "Select an option...") := by
    simp [fillDropdownAttrs, orSet, defSet, Obj.set, jOr_absorb]
  have h2 : fillDropdownAttrs o "variant" = jOr (o "variant") (JVal.s "outlined") := by
    simp [fillDropdownAttrs, orSet, defSet, Obj.set, jOr_absorb]
  have h3 : fillDropdownAttrs o "options" = jOr (o "options") (JVal.arr []) := by
    simp [fillDropdownAttrs, orSet, defSet, Obj.set, jOr_absorb]
  have h4 : fillDropdownAttrs o "optionLabel" = jOr (o "optionLabel") (JVal.s "text") := by
    simp [fillDropdownAttrs, orSet, defSet, Obj.set, jOr_absorb]
  have h5 : fillDropdownAttrs o "optionValue" = jOr (o "optionValue") (JVal.s "value") := by
    simp [fillDropdownAttrs, orSet, defSet, Obj.set, jOr_absorb]
  have h6 : fillDropdownAttrs o "optionGroupLabel" = jOr (o "optionGroupLabel") (JVal.s "label") := by
    simp [fillDropdownAttrs, orSet, defSet, Obj.set, jOr_absorb]
  have h7 : fillDropdownAttrs o "optionGroupChildren" = jOr (o "optionGroupChildren") (JVal.s "items") := by
    simp [fillDropdownAttrs, orSet, defSet, Obj.set, jOr_absorb]
  have h8 : fillDropdownAttrs o "checkmark" = jDef (o "checkmark") (JVal.b true) := by
    simp [fillDropdownAttrs, orSet, defSet, Obj.set, jOr_absorb]
  have h9 : fillDropdownAttrs o "highlightOnSelect" = jDef (o "highlightOnSelect") (JVal.b true) := by
    simp [fillDropdownAttrs, orSet, defSet, Obj.set, jOr_absorb]
  have h10 : fillDropdownAttrs o "editable" = jOr (o "editable") (JVal.b false) := by
    simp [fillDropdownAttrs, orSet, defSet, Obj.set, jOr_absorb]
  have h11 : fillDropdownAttrs o "filter" = jDef (o "filter") (JVal.b true) := by
    simp [fillDropdownAttrs, orSet, defSet, Obj.set, jOr_absorb]
  have h12 : fillDropdownAttrs o "showClear" = jOr (o "showClear") (JVal.b false) := by
    simp [fillDropdownAttrs, orSet, defSet, Obj.set, jOr_absorb]
  have h13 : fillDropdownAttrs o "loading" = jOr (o "loading") (JVal.b false) := by
    simp [fillDropdownAttrs, orSet, defSet, Obj.set, jOr_absorb]
  have h14 : fillDropdownAttrs o "floatLabel" = jDef (o "floatLabel") (JVal.b true) := by
    simp [fillDropdownAttrs, orSet, defSet, Obj.set, jOr_absorb]
  have h15 : fillDropdownAttrs o "invalid" = jOr (o "invalid") (JVal.b false) := by
    simp [fillDropdownAttrs, orSet, defSet, Obj.set, jOr_absorb]
  have h16 : fillDropdownAttrs o "disabled" = jOr (o "disabled") (JVal.b false) := by
    simp [fillDropdownAttrs, orSet, defSet, Obj.set, jOr_absorb]
  have h17 : fillDropdownAttrs o "optionGroupTemplate" = jOr (o "optionGroupTemplate") (JVal.s "") := by
    simp [fillDropdownAttrs, orSet, defSet, Obj.set, jOr_absorb]
  have h18 : fillDropdownAttrs o "valueTemplate" = jOr (o "valueTemplate") (JVal.s "") := by
    simp [fillDropdownAttrs, orSet, defSet, Obj.set, jOr_absorb]
  have h19 : fillDropdownAttrs o "itemTemplate" = jOr (o "itemTemplate") (JVal.s "") := by
    simp [fillDropdownAttrs, orSet, defSet, Obj.set, jOr_absorb]
  have h20 : fillDropdownAttrs o "panelFooterTemplate" = jOr (o "panelFooterTemplate") (JVal.s "") := by
    simp [fillDropdownAttrs, orSet, defSet, Obj.set, jOr_absorb]
  generalize hX : fillDropdownAttrs o = X
  rw [hX] at h1 h2 h3 h4 h5 h6 h7 h8 h9 h10 h11 h12 h13 h14 h15 h16 h17 h18 h19 h20
  simp only [fillDropdownAttrs]
  rw [orSet_fix X "placeholder" (JVal.s "Select an option...") (by rw [h1]; exact (jOr_absorb _ _).symm)]
  rw [orSet_fix X "variant" (JVal.s "outlined") (by rw [h2]; exact (jOr_absorb _ _).symm)]
  rw [orSet_fix X "options" (JVal.arr []) (by rw [h3]; exact (jOr_absorb _ _).symm)]
  rw [orSet_fix X "optionLabel" (JVal.s "text") (by rw [h4]; exact (jOr_absorb _ _).symm)]
  rw [orSet_fix X "optionValue" (JVal.s "value") (by rw [h5]; exact (jOr_absorb _ _).symm)]
  rw [orSet_fix X "optionGroupLabel" (JVal.s "label") (by rw [h6]; exact (jOr_absorb _ _).symm)]
  rw [orSet_fix X "optionGroupChildren" (JVal.s "items") (by rw [h7]; exact (jOr_absorb _ _).symm)]
  rw [defSet_fix X "checkmark" (JVal.b true) (by rw [h8]; exact (jDef_absorb _ _).symm)]
  rw [defSet_fix X "highlightOnSelect" (JVal.b true) (by rw [h9]; exact (jDef_absorb _ _).symm)]
  rw [orSet_fix X "editable" (JVal.b false) (by rw [h10]; exact (jOr_absorb _ _).symm)]
  rw [defSet_fix X "filter" (JVal.b true) (by rw [h11]; exact (jDef_absorb _ _).symm)]
  rw [orSet_fix X "showClear" (JVal.b false) (by rw [h12]; exact (jOr_absorb _ _).symm)]
  rw [orSet_fix X "loading" (JVal.b false) (by rw [h13]; exact (jOr_absorb _ _).symm)]
  rw [defSet_fix X "floatLabel" (JVal.b true) (by rw [h14]; exact (jDef_absorb _ _).symm)]
  rw [orSet_fix X "invalid" (JVal.b false) (by rw [h15]; exact (jOr_absorb _ _).symm)]
  rw [orSet_fix X "disabled" (JVal.b false) (by rw [h16]; exact (jOr_absorb _ _).symm)]
  rw [orSet_fix X "optionGroupTemplate" (JVal.s "") (by rw [h17]; exact (jOr_absorb _ _).symm)]
  rw [orSet_fix X "valueTemplate" (JVal.s "") (by rw [h18]; exact (jOr_absorb _ _).symm)]
  rw [orSet_fix X "itemTemplate" (JVal.s "") (by rw [h19]; exact (jOr_absorb _ _).symm)]
  rw [orSet_fix X "panelFooterTemplate" (JVal.s "") (by rw [h20]; exact (jOr_absorb _ _).symm)]

theorem fillDropdownTop_idem (t : Obj) :
    fillDropdownTop (fillDropdownTop t) = fillDropdownTop t := by
  have h1 : fillDropdownTop t "dependOn" = jOr (t "dependOn") (JVal.s "") := by
    simp [fillDropdownTop, fillCommonTop, orSet, defSet, Obj.set, jOr_absorb]
  have h2 : fillDropdownTop t "uniqueId" = jOr (t "uniqueId") (JVal.s "") := by
    simp [fillDropdownTop, fillCommonTop, orSet, defSet, Obj.set, jOr_absorb]
  have h3 : fillDropdownTop t "displayName" = jOr (t "displayName") (t "name") := by
    simp [fillDropdownTop, fillCommonTop, orSet, defSet, Obj.set, jOr_absorb]
  have h4 : fillDropdownTop t "isVisible" = jDef (t "isVisible") (JVal.b true) := by
    simp [fillDropdownTop, fillCommonTop, orSet, defSet, Obj.set, jOr_absorb]
  have h5 : fillDropdownTop t "getApiUrl" = jOr (t "getApiUrl") (JVal.s "") := by
    simp [fillDropdownTop, fillCommonTop, orSet, defSet, Obj.set, jOr_absorb]
  have hnm : fillDropdownTop t "name" = t "name" := by
    simp [fillDropdownTop, fillCommonTop, orSet, defSet, Obj.set]
  generalize hX : fillDropdownTop t = X
  rw [hX] at h1 h2 h3 h4 h5 hnm
  simp only [fillDropdownTop, fillCommonTop]
  rw [orSet_fix X "dependOn" (JVal.s "") (by rw [h1]; exact (jOr_absorb _ _).symm)]
  rw [orSet_fix X "uniqueId" (JVal.s "") (by rw [h2]; exact (jOr_absorb _ _).symm)]
  rw [Obj.set_fix X "displayName" (jOr (X "displayName") (X "name"))
    (by rw [h3, hnm]; exact (jOr_absorb _ _).symm)]
  rw [defSet_fix X "isVisible" (JVal.b true) (by rw [h4]; exact (jDef_absorb _ _).symm)]
  rw [orSet_fix X "getApiUrl" (JVal.s "") (by rw [h5]; exact (jOr_absorb _ _).symm)]

theorem fillTextareaAttrs_idem (o : Obj) :
    fillTextareaAttrs (fillTextareaAttrs o) = fillTextareaAttrs o := by
  have h1 : fillTextareaAttrs o "placeholder" = jOr (o "placeholder") (JVal.s "Enter text...") := by
    simp [fillTextareaAttrs, orSet, defSet, Obj.set, jOr_absorb]
  have h2 : fillTextareaAttrs o "rows" = jOr (o "rows") (JVal.n 5) := by
    simp [fillTextareaAttrs, orSet, defSet, Obj.set, jOr_absorb]
  have h3 : fillTextareaAttrs o "cols" = jOr (o "cols") (JVal.undefined) := by
    simp [fillTextareaAttrs, orSet, defSet, Obj.set, jOr_absorb]
  have h4 : fillTextareaAttrs o "autoResize" = jDef (o "autoResize") (JVal.b true) := by
    simp [fillTextareaAttrs, orSet, defSet, Obj.set, jOr_absorb]
  have h5 : fillTextareaAttrs o "keyfilter" = jOr (o "keyfilter") (JVal.s "") := by
    simp [fillTextareaAttrs, orSet, defSet, Obj.set, jOr_absorb]
  have h6 : fillTextareaAttrs o "floatLabel" = jDef (o "floatLabel") (JVal.b true) := by
    simp [fillTextareaAttrs, orSet, defSet, Obj.set, jOr_absorb]
  have h7 : fillTextareaAttrs o "variant" = jOr (o "variant") (JVal.s "outlined") := by
    simp [fillTextareaAttrs, orSet, defSet, Obj.set, jOr_absorb]
  have h8 : fillTextareaAttrs o "disabled" = jOr (o "disabled") (JVal.b false) := by
    simp [fillTextareaAttrs, orSet, defSet, Obj.set, jOr_absorb]
  have h9 : fillTextareaAttrs o "invalid" = jOr (o "invalid") (JVal.b false) := by
    simp [fillTextareaAttrs, orSet, defSet, Obj.set, jOr_absorb]
  have h10 : fillTextareaAttrs o "helpText" = jOr (o "helpText") (JVal.s "") := by
    simp [fillTextareaAttrs, orSet, defSet, Obj.set, jOr_absorb]
  generalize hX : fillTextareaAttrs o = X
  rw [hX] at h1 h2 h3 h4 h5 h6 h7 h8 h9 h10
  simp only [fillTextareaAttrs]
  rw [orSet_fix X "placeholder" (JVal.s "Enter text...") (by rw [h1]; exact (jOr_absorb _ _).symm)]
  rw [orSet_fix X "rows" (JVal.n 5) (by rw [h2]; exact (jOr_absorb _ _).symm)]
  rw [orSet_fix X "cols" (JVal.undefined) (by rw [h3]; exact (jOr_absorb _ _).symm)]
  rw [defSet_fix X "autoResize" (JVal.b true) (by rw [h4]; exact (jDef_absorb _ _).symm)]
  rw [orSet_fix X "keyfilter" (JVal.s "") (by rw [h5]; exact (jOr_absorb _ _).symm)]
  rw [defSet_fix X "floatLabel" (JVal.b true) (by rw [h6]; exact (jDef_absorb _ _).symm)]
  rw [orSet_fix X "variant" (JVal.s "outlined") (by rw [h7]; exact (jOr_absorb _ _).symm)]
  rw [orSet_fix X "disabled" (JVal.b false) (by rw [h8]; exact (jOr_absorb _ _).symm)]
  rw [orSet_fix X "invalid" (JVal.b false) (by rw [h9]; exact (jOr_absorb _ _).symm)]
  rw [orSet_fix X "helpText" (JVal.s "") (by rw [h10]; exact (jOr_absorb _ _).symm)]

theorem fillTextareaVals_idem (o : Obj) :
    fillTextareaVals (fillTextareaVals o) = fillTextareaVals o := by
  have h1 : fillTextareaVals o "required" = jOr (o "required") (JVal.b false) := by
    simp [fillTextareaVals, orSet, defSet, Obj.set, jOr_absorb]
  have h2 : fillTextareaVals o "minLength" = jOr (o "minLength") (JVal.undefined) := by
    simp [fillTextareaVals, orSet, defSet, Obj.set, jOr_absorb]
  have h3 : fillTextareaVals o "maxLength" = jOr (o "maxLength") (JVal.undefined) := by
    simp [fillTextareaVals, orSet, defSet, Obj.set, jOr_absorb]
  generalize hX : fillTextareaVals o = X
  rw [hX] at h1 h2 h3
  simp only [fillTextareaVals]
  rw [orSet_fix X "required" (JVal.b false) (by rw [h1]; exact (jOr_absorb _ _).symm)]
  rw [orSet_fix X "minLength" (JVal.undefined) (by rw [h2]; exact (jOr_absorb _ _).symm)]
  rw [orSet_fix X "maxLength" (JVal.undefined) (by rw [h3]; exact (jOr_absorb _ _).symm)]

theorem fillUidAttrs_idem (o : Obj) :
    fillUidAttrs (fillUidAttrs o) = fillUidAttrs o := by
  have h1 : fillUidAttrs o "placeholder" = jOr (o "placeholder") (JVal.s "Auto-generated UID") := by
    simp [fillUidAttrs, orSet, defSet, Obj.set, jOr_absorb]
  have h2 : fillUidAttrs o "disabled" = jDef (o "disabled") (JVal.b true) := by
    simp [fillUidAttrs, orSet, defSet, Obj.set, jOr_absorb]
  generalize hX : fillUidAttrs o = X
  rw [hX] at h1 h2
  simp only [fillUidAttrs]
  rw [orSet_fix X "placeholder" (JVal.s "Auto-generated UID") (by rw [h1]; exact (jOr_absorb _ _).symm)]
  rw [defSet_fix X "disabled" (JVal.b true) (by rw [h2]; exact (jDef_absorb _ _).symm)]

theorem fillTextAttrs_keep (o : Obj) (k : String) (h : truthy (o k) = true) :
    fillTextAttrs o k = o k := by
  simp only [fillTextAttrs, orSet, defSet, Obj.set]
  by_cases e1 : k = "placeholder"
  · subst e1; simp; exact jOr_truthy _ h
  by_cases e2 : k = "keyfilter"
  · subst e2; simp; exact jOr_truthy _ h
  by_cases e3 : k = "helpText"
  · subst e3; simp; exact jOr_truthy _ h
  by_cases e4 : k = "floatLabel"
  · subst e4; simp; exact jDef_truthy _ h
  by_cases e5 : k = "disabled"
  · subst e5; simp; exact jOr_truthy _ h
  by_cases e6 : k = "icon"
  · subst e6; simp; exact jOr_truthy _ h
  by_cases e7 : k = "tooltip"
  · subst e7; simp; exact jOr_truthy _ h
  by_cases e8 : k = "tooltipPosition"
  · subst e8; simp; exact jOr_truthy _ h
  by_cases e9 : k = "tooltipEvent"
  · subst e9; simp; exact jOr_truthy _ h
  by_cases e10 : k = "autoClear"
  · subst e10; simp; exact jOr_truthy _ h
  by_cases e11 : k = "variant"
  · subst e11; simp; exact jOr_truthy _ h
  by_cases e12 : k = "tooltipOptions"
  · subst e12; simp; exact jOr_truthy _ h
  simp [e1, e2, e3, e4, e5, e6, e7, e8, e9, e10, e11, e12]

theorem fillTextVals_keep (o : Obj) (k : String) (h : truthy (o k) = true) :
    fillTextVals o k = o k := by
  simp only [fillTextVals, orSet, defSet, Obj.set]
  by_cases e1 : k = "minLength"
  · subst e1; simp; exact jOr_truthy _ h
  by_cases e2 : k = "maxLength"
  · subst e2; simp; exact jOr_truthy _ h
  by_cases e3 : k = "regex"
  · subst e3; simp; exact jOr_truthy _ h
  by_cases e4 : k = "apiUrl"
  · subst e4; simp; exact jOr_truthy _ h
  simp [e1, e2, e3, e4]

theorem fillInputMaskAttrs_keep (o : Obj) (k : String) (h : truthy (o k) = true) :
    fillInputMaskAttrs o k = o k := by
  simp only [fillInputMaskAttrs, orSet, defSet, Obj.set]
  by_cases e1 : k = "placeholder"
  · subst e1; simp; exact jOr_truthy _ h
  by_cases e2 : k = "mask"
  · subst e2; simp; exact jOr_truthy _ h
  by_cases e3 : k = "slotChar"
  · subst e3; simp; exact jOr_truthy _ h
  by_cases e4 : k = "helpText"
  · subst e4; simp; exact jOr_truthy _ h
  by_cases e5 : k = "floatLabel"
  · subst e5; simp; exact jDef_truthy _ h
  by_cases e6 : k = "disabled"
  · subst e6; simp; exact jOr_truthy _ h
  by_cases e7 : k = "icon"
  · subst e7; simp; exact jOr_truthy _ h
  by_cases e8 : k = "autoClear"
  · subst e8; simp; exact jOr_truthy _ h
  by_cases e9 : k = "variant"
  · subst e9; simp; exact jOr_truthy _ h
  by_cases e10 : k = "invalid"
  · subst e10; simp; exact jOr_truthy _ h
  simp [e1, e2, e3, e4, e5, e6, e7, e8, e9, e10]

theorem fillInputMaskVals_keep (a v : Obj) (k : String) (h : truthy (v k) = true) :
    fillInputMaskVals a v k = v k := by
  simp only [fillInputMaskVals, orSet, defSet, Obj.set]
  by_cases e1 : k = "required"
  · subst e1; simp; exact jOr_truthy _ h
  by_cases e2 : k = "mask"
  · subst e2; simp; exact jOr_truthy _ h
  by_cases e3 : k = "regex"
  · subst e3; simp; exact jOr_truthy _ h
  by_cases e4 : k = "unmask"
  · subst e4; simp; exact jDef_truthy _ h
  simp [e1, e2, e3, e4]

theorem fillRichTextAttrs_keep (o : Obj) (k : String) (h : truthy (o k) = true) :
    fillRichTextAttrs o k = o k := by
  simp only [fillRichTextAttrs, orSet, defSet, Obj.set]
  by_cases e1 : k = "rows"
  · subst e1; simp; exact jOr_truthy _ h
  by_cases e2 : k = "cols"
  · subst e2; simp; exact jOr_truthy _ h
  by_cases e3 : k = "autoResize"
  · subst e3; simp; exact jDef_truthy _ h
  by_cases e4 : k = "placeholder"
  · subst e4; simp; exact jOr_truthy _ h
  simp [e1, e2, e3, e4]

theorem fillNumberAttrs_keep (o : Obj) (k : String) (h : truthy (o k) = true) :
    fillNumberAttrs o k = o k := by
  simp only [fillNumberAttrs, orSet, defSet, Obj.set]
  by_cases e1 : k = "placeholder"
  · subst e1; simp; exact jOr_truthy _ h
  by_cases e2 : k = "helpText"
  · subst e2; simp; exact jOr_truthy _ h
  by_cases e3 : k = "mode"
  · subst e3; simp; exact jOr_truthy _ h
  by_cases e4 : k = "locale"
  · subst e4; simp; exact jOr_truthy _ h
  by_cases e5 : k = "suffix"
  · subst e5; simp; exact jOr_truthy _ h
  by_cases e6 : k = "prefix"
  · subst e6; simp; exact jOr_truthy _ h
  by_cases e7 : k = "showButtons"
  · subst e7; simp; exact jOr_truthy _ h
  by_cases e8 : k = "currency"
  · subst e8; simp; exact jOr_truthy _ h
  by_cases e9 : k = "step"
  · subst e9; simp; exact jOr_truthy _ h
  by_cases e10 : k = "min"
  · subst e10; simp; exact jOr_truthy _ h
  by_cases e11 : k = "max"
  · subst e11; simp; exact jOr_truthy _ h
  by_cases e12 : k = "minFractionDigits"
  · subst e12; simp; exact jOr_truthy _ h
  by_cases e13 : k = "maxFractionDigits"
  · subst e13; simp; exact jOr_truthy _ h
  by_cases e14 : k = "incrementButtonIcon"
  · subst e14; simp; exact jOr_truthy _ h
  by_cases e15 : k = "decrementButtonIcon"
  · subst e15; simp; exact jOr_truthy _ h
  by_cases e16 : k = "decrementButtonClassName"
  · subst e16; simp; exact jOr_truthy _ h
  by_cases e17 : k = "incrementButtonClassName"
  · subst e17; simp; exact jOr_truthy _ h
  by_cases e18 : k = "buttonLayout"
  · subst e18; simp; exact jOr_truthy _ h
  by_cases e19 : k = "autoClear"
  · subst e19; simp; exact jOr_truthy _ h
  by_cases e20 : k = "icon"
  · subst e20; simp; exact jOr_truthy _ h
  by_cases e21 : k = "floatLabel"
  · subst e21; simp; exact jDef_truthy _ h
  by_cases e22 : k = "variant"
  · subst e22; simp; exact jOr_truthy _ h
  by_cases e23 : k = "invalid"
  · subst e23; simp; exact jOr_truthy _ h
  by_cases e24 : k = "disabled"
  · subst e24; simp; exact jOr_truthy _ h
  by_cases e25 : k = "useGrouping"
  · subst e25; simp; exact jDef_truthy _ h
  simp [e1, e2, e3, e4, e5, e6, e7, e8, e9, e10, e11, e12, e13, e14, e15, e16, e17, e18, e19, e20, e21, e22, e23, e24, e25]

theorem fillNumberVals_keep (o : Obj) (k : String) (h : truthy (o k) = true) :
    fillNumberVals o k = o k := by
  simp only [fillNumberVals, orSet, defSet, Obj.set]
  by_cases e1 : k = "required"
  · subst e1; simp; exact jOr_truthy _ h
  by_cases e2 : k = "minValue"
  · subst e2; simp; exact jOr_truthy _ h
  by_cases e3 : k = "maxValue"
  · subst e3; simp; exact jOr_truthy _ h
  by_cases e4 : k = "minFractionDigits"
  · subst e4; simp; exact jOr_truthy _ h
  by_cases e5 : k = "maxFractionDigits"
  · subst e5; simp; exact jOr_truthy _ h
  simp [e1, e2, e3, e4, e5]

theorem fillDateAttrs_keep (o : Obj) (k : String) (h : truthy (o k) = true) :
    fillDateAttrs o k = o k := by
  simp only [fillDateAttrs, orSet, defSet, Obj.set]
  by_cases e1 : k = "dateFormat"
  · subst e1; simp; exact jOr_truthy _ h
  by_cases e2 : k = "locale"
  · subst e2; simp; exact jOr_truthy _ h
  by_cases e3 : k = "showIcon"
  · subst e3; simp; exact jDef_truthy _ h
  by_cases e4 : k = "minDate"
  · subst e4; simp; exact jOr_truthy _ h
  by_cases e5 : k = "maxDate"
  · subst e5; simp; exact jOr_truthy _ h
  by_cases e6 : k = "readOnlyInput"
  · subst e6; simp; exact jOr_truthy _ h
  by_cases e7 : k = "selectionMode"
  · subst e7; simp; exact jOr_truthy _ h
  by_cases e8 : k = "hideOnRangeSelection"
  · subst e8; simp; exact jOr_truthy _ h
  by_cases e9 : k = "showButtonBar"
  · subst e9; simp; exact jDef_truthy _ h
  by_cases e10 : k = "view"
  · subst e10; simp; exact jOr_truthy _ h
  by_cases e11 : k = "numberOfMonths"
  · subst e11; simp; exact jOr_truthy _ h
  by_cases e12 : k = "showTime"
  · subst e12; simp; exact jOr_truthy _ h
  by_cases e13 : k = "hourFormat"
  · subst e13; simp; exact jOr_truthy _ h
  by_cases e14 : k = "timeOnly"
  · subst e14; simp; exact jOr_truthy _ h
  by_cases e15 : k = "variant"
  · subst e15; simp; exact jOr_truthy _ h
  by_cases e16 : k = "icon"
  · subst e16; simp; exact jOr_truthy _ h
  by_cases e17 : k = "floatLabel"
  · subst e17; simp; exact jDef_truthy _ h
  by_cases e18 : k = "invalid"
  · subst e18; simp; exact jOr_truthy _ h
  by_cases e19 : k = "disabled"
  · subst e19; simp; exact jOr_truthy _ h
  by_cases e20 : k = "inline"
  · subst e20; simp; exact jOr_truthy _ h
  by_cases e21 : k = "showWeek"
  · subst e21; simp; exact jOr_truthy _ h
  simp [e1, e2, e3, e4, e5, e6, e7, e8, e9, e10, e11, e12, e13, e14, e15, e16, e17, e18, e19, e20, e21]

theorem fillCommonTop_keep (t : Obj) (k : String) (h : truthy (t k) = true) :
    fillCommonTop t k = t k := by
  simp only [fillCommonTop, orSet, defSet, Obj.set]
  by_cases e1 : k = "dependOn"
  · subst e1; simp; exact jOr_truthy _ h
  by_cases e2 : k = "uniqueId"
  · subst e2; simp; exact jOr_truthy _ h
  by_cases e3 : k = "displayName"
  · subst e3; simp; exact jOr_truthy _ h
  by_cases e4 : k = "isVisible"
  · subst e4; simp; exact jDef_truthy _ h
  simp [e1, e2, e3, e4]

theorem fillJsonAttrs_keep (o : Obj) (k : String) (h : truthy (o k) = true) :
    fillJsonAttrs o k = o k := by
  simp only [fillJsonAttrs, orSet, defSet, Obj.set]
  by_cases e1 : k = "rows"
  · subst e1; simp; exact jOr_truthy _ h
  by_cases e2 : k = "autoResize"
  · subst e2; simp; exact jDef_truthy _ h
  simp [e1, e2]

theorem fillEmailAttrs_keep (o : Obj) (k : String) (h : truthy (o k) = true) :
    fillEmailAttrs o k = o k := by
  simp only [fillEmailAttrs, orSet, defSet, Obj.set]
  by_cases e1 : k = "placeholder"
  · subst e1; simp; exact jOr_truthy _ h
  by_cases e2 : k = "keyfilter"
  · subst e2; simp; exact jOr_truthy _ h
  simp [e1, e2]

theorem fillPasswordAttrs_keep (o : Obj) (k : String) (h : truthy (o k) = true) :
    fillPasswordAttrs o k = o k := by
  simp only [fillPasswordAttrs, orSet, defSet, Obj.set]
  by_cases e1 : k = "promptLabel"
  · subst e1; simp; exact jOr_truthy _ h
  by_cases e2 : k = "icon"
  · subst e2; simp; exact jOr_truthy _ h
  by_cases e3 : k = "variant"
  · subst e3; simp; exact jOr_truthy _ h
  by_cases e4 : k = "weakLabel"
  · subst e4; simp; exact jOr_truthy _ h
  by_cases e5 : k = "mediumLabel"
  · subst e5; simp; exact jOr_truthy _ h
  by_cases e6 : k = "strongLabel"
  · subst e6; simp; exact jOr_truthy _ h
  by_cases e7 : k = "feedback"
  · subst e7; simp; exact jDef_truthy _ h
  by_cases e8 : k = "toggleMask"
  · subst e8; simp; exact jDef_truthy _ h
  by_cases e9 : k = "floatLabel"
  · subst e9; simp; exact jDef_truthy _ h
  by_cases e10 : k = "invalid"
  · subst e10; simp; exact jOr_truthy _ h
  by_cases e11 : k = "disabled"
  · subst e11; simp; exact jOr_truthy _ h
  simp [e1, e2, e3, e4, e5, e6, e7, e8, e9, e10, e11]

theorem fillPasswordVals_keep (o : Obj) (k : String) (h : truthy (o k) = true) :
    fillPasswordVals o k = o k := by
  simp only [fillPasswordVals, orSet, defSet, Obj.set]
  by_cases e1 : k = "required"
  · subst e1; simp; exact jOr_truthy _ h
  by_cases e2 : k = "minLength"
  · subst e2; simp; exact jOr_truthy _ h
  by_cases e3 : k = "maxLength"
  · subst e3; simp; exact jOr_truthy _ h
  by_cases e4 : k = "regex"
  · subst e4; simp; exact jOr_truthy _ h
  simp [e1, e2, e3, e4]

theorem fillEnumerationAttrs_keep (o : Obj) (k : String) (h : truthy (o k) = true) :
    fillEnumerationAttrs o k = o k := by
  simp only [fillEnumerationAttrs, orSet, defSet, Obj.set]
  by_cases e1 : k = "dropdown"
  · subst e1; simp; exact jDef_truthy _ h
  by_cases e2 : k = "multiple"
  · subst e2; simp; exact jOr_truthy _ h
  by_cases e3 : k = "filter"
  · subst e3; simp; exact jDef_truthy _ h
  by_cases e4 : k = "showClear"
  · subst e4; simp; exact jDef_truthy _ h
  simp [e1, e2, e3, e4]

theorem fillMediaAttrs_keep (o : Obj) (k : String) (h : truthy (o k) = true) :
    fillMediaAttrs o k = o k := by
  simp only [fillMediaAttrs, orSet, defSet, Obj.set]
  by_cases e1 : k = "mode"
  · subst e1; simp; exact jOr_truthy _ h
  by_cases e2 : k = "accept"
  · subst e2; simp; exact jOr_truthy _ h
  by_cases e3 : k = "maxFileSize"
  · subst e3; simp; exact jOr_truthy _ h
  by_cases e4 : k = "auto"
  · subst e4; simp; exact jDef_truthy _ h
  by_cases e5 : k = "chooseLabel"
  · subst e5; simp; exact jOr_truthy _ h
  simp [e1, e2, e3, e4, e5]

theorem fillRelationAttrs_keep (o : Obj) (k : String) (h : truthy (o k) = true) :
    fillRelationAttrs o k = o k := by
  simp only [fillRelationAttrs, orSet, defSet, Obj.set]
  by_cases e1 : k = "dropdown"
  · subst e1; simp; exact jDef_truthy _ h
  by_cases e2 : k = "filter"
  · subst e2; simp; exact jDef_truthy _ h
  simp [e1, e2]

theorem fillAutocompleteAttrs_keep (o : Obj) (k : String) (h : truthy (o k) = true) :
    fillAutocompleteAttrs o k = o k := by
  simp only [fillAutocompleteAttrs, orSet, defSet, Obj.set]
  by_cases e1 : k = "placeholder"
  · subst e1; simp; exact jOr_truthy _ h
  by_cases e2 : k = "icon"
  · subst e2; simp; exact jOr_truthy _ h
  by_cases e3 : k = "variant"
  · subst e3; simp; exact jOr_truthy _ h
  by_cases e4 : k = "dropdown"
  · subst e4; simp; exact jDef_truthy _ h
  by_cases e5 : k = "object"
  · subst e5; simp; exact jOr_truthy _ h
  by_cases e6 : k = "group"
  · subst e6; simp; exact jOr_truthy _ h
  by_cases e7 : k = "forceSelection"
  · subst e7; simp; exact jOr_truthy _ h
  by_cases e8 : k = "multiple"
  · subst e8; simp; exact jOr_truthy _ h
  by_cases e9 : k = "floatLabel"
  · subst e9; simp; exact jDef_truthy _ h
  by_cases e10 : k = "invalid"
  · subst e10; simp; exact jOr_truthy _ h
  by_cases e11 : k = "disabled"
  · subst e11; simp; exact jOr_truthy _ h
  simp [e1, e2, e3, e4, e5, e6, e7, e8, e9, e10, e11]

theorem fillCascadeSelectAttrs_keep (o : Obj) (k : String) (h : truthy (o k) = true) :
    fillCascadeSelectAttrs o k = o k := by
  simp only [fillCascadeSelectAttrs, orSet, defSet, Obj.set]
  by_cases e1 : k = "placeholder"
  · subst e1; simp; exact jOr_truthy _ h
  by_cases e2 : k = "variant"
  · subst e2; simp; exact jOr_truthy _ h
  by_cases e3 : k = "optionLabel"
  · subst e3; simp; exact jOr_truthy _ h
  by_cases e4 : k = "optionValue"
  · subst e4; simp; exact jOr_truthy _ h
  by_cases e5 : k = "optionGroupLabel"
  · subst e5; simp; exact jOr_truthy _ h
  by_cases e6 : k = "optionGroupChildren"
  · subst e6; simp; exact jOr_truthy _ h
  by_cases e7 : k = "options"
  · subst e7; simp; exact jOr_truthy _ h
  by_cases e8 : k = "floatLabel"
  · subst e8; simp; exact jDef_truthy _ h
  by_cases e9 : k = "invalid"
  · subst e9; simp; exact jOr_truthy _ h
  by_cases e10 : k = "disabled"
  · subst e10; simp; exact jOr_truthy _ h
  simp [e1, e2, e3, e4, e5, e6, e7, e8, e9, e10]

theorem fillDropdownAttrs_keep (o : Obj) (k : String) (h : truthy (o k) = true) :
    fillDropdownAttrs o k = o k := by
  simp only [fillDropdownAttrs, orSet, defSet, Obj.set]
  by_cases e1 : k = "placeholder"
  · subst e1; simp; exact jOr_truthy _ h
  by_cases e2 : k = "variant"
  · subst e2; simp; exact jOr_truthy _ h
  by_cases e3 : k = "options"
  · subst e3; simp; exact jOr_truthy _ h
  by_cases e4 : k = "optionLabel"
  · subst e4; simp; exact jOr_truthy _ h
  by_cases e5 : k = "optionValue"
  · subst e5; simp; exact jOr_truthy _ h
  by_cases e6 : k = "optionGroupLabel"
  · subst e6; simp; exact jOr_truthy _ h
  by_cases e7 : k = "optionGroupChildren"
  · subst e7; simp; exact jOr_truthy _ h
  by_cases e8 : k = "checkmark"
  · subst e8; simp; exact jDef_truthy _ h
  by_cases e9 : k = "highlightOnSelect"
  · subst e9; simp; exact jDef_truthy _ h
  by_cases e10 : k = "editable"
  · subst e10; simp; exact jOr_truthy _ h
  by_cases e11 : k = "filter"
  · subst e11; simp; exact jDef_truthy _ h
  by_cases e12 : k = "showClear"
  · subst e12; simp; exact jOr_truthy _ h
  by_cases e13 : k = "loading"
  · subst e13; simp; exact jOr_truthy _ h
  by_cases e14 : k = "floatLabel"
  · subst e14; simp; exact jDef_truthy _ h
  by_cases e15 : k = "invalid"
  · subst e15; simp; exact jOr_truthy _ h
  by_cases e16 : k = "disabled"
  · subst e16; simp; exact jOr_truthy _ h
  by_cases e17 : k = "optionGroupTemplate"
  · subst e17; simp; exact jOr_truthy _ h
  by_cases e18 : k = "valueTemplate"
  · subst e18; simp; exact jOr_truthy _ h
  by_cases e19 : k = "itemTemplate"
  · subst e19; simp; exact jOr_truthy _ h
  by_cases e20 : k = "panelFooterTemplate"
  · subst e20; simp; exact jOr_truthy _ h
  simp [e1, e2, e3, e4, e5, e6, e7, e8, e9, e10, e11, e12, e13, e14, e15, e16, e17, e18, e19, e20]

theorem fillDropdownTop_keep (t : Obj) (k : String) (h : truthy (t k) = true) :
    fillDropdownTop t k = t k := by
  simp only [fillDropdownTop, fillCommonTop, orSet, defSet, Obj.set]
  by_cases e1 : k = "dependOn"
  · subst e1; simp; exact jOr_truthy _ h
  by_cases e2 : k = "uniqueId"
  · subst e2; simp; exact jOr_truthy _ h
  by_cases e3 : k = "displayName"
  · subst e3; simp; exact jOr_truthy _ h
  by_cases e4 : k = "isVisible"
  · subst e4; simp; exact jDef_truthy _ h
  by_cases e5 : k = "getApiUrl"
  · subst e5; simp; exact jOr_truthy _ h
  simp [e1, e2, e3, e4, e5]

theorem fillTextareaAttrs_keep (o : Obj) (k : String) (h : truthy (o k) = true) :
    fillTextareaAttrs o k = o k := by
  simp only [fillTextareaAttrs, orSet, defSet, Obj.set]
  by_cases e1 : k = "placeholder"
  · subst e1; simp; exact jOr_truthy _ h
  by_cases e2 : k = "rows"
  · subst e2; simp; exact jOr_truthy _ h
  by_cases e3 : k = "cols"
  · subst e3; simp; exact jOr_truthy _ h
  by_cases e4 : k = "autoResize"
  · subst e4; simp; exact jDef_truthy _ h
  by_cases e5 : k = "keyfilter"
  · subst e5; simp; exact jOr_truthy _ h
  by_cases e6 : k = "floatLabel"
  · subst e6; simp; exact jDef_truthy _ h
  by_cases e7 : k = "variant"
  · subst e7; simp; exact jOr_truthy _ h
  by_cases e8 : k = "disabled"
  · subst e8; simp; exact jOr_truthy _ h
  by_cases e9 : k = "invalid"
  · subst e9; simp; exact jOr_truthy _ h
  by_cases e10 : k = "helpText"
  · subst e10; simp; exact jOr_truthy _ h
  simp [e1, e2, e3, e4, e5, e6, e7, e8, e9, e10]

theorem fillTextareaVals_keep (o : Obj) (k : String) (h : truthy (o k) = true) :
    fillTextareaVals o k = o k := by
  simp only [fillTextareaVals, orSet, defSet, Obj.set]
  by_cases e1 : k = "required"
  · subst e1; simp; exact jOr_truthy _ h
  by_cases e2 : k = "minLength"
  · subst e2; simp; exact jOr_truthy _ h
  by_cases e3 : k = "maxLength"
  · subst e3; simp; exact jOr_truthy _ h
  simp [e1, e2, e3]

theorem fillUidAttrs_keep (o : Obj) (k : String) (h : truthy (o k) = true) :
    fillUidAttrs o k = o k := by
  simp only [fillUidAttrs, orSet, defSet, Obj.set]
  by_cases e1 : k = "placeholder"
  · subst e1; simp; exact jOr_truthy _ h
  by_cases e2 : k = "disabled"
  · subst e2; simp; exact jDef_truthy _ h
  simp [e1, e2]
theorem applyDefaults_idem (fd : Field) :
    applyDefaults (applyDefaults fd) = applyDefaults fd := by
  cases fd with
  | mk t top attrs vals =>
    cases t <;>
      simp [applyDefaults, fillTextAttrs_idem, fillTextVals_idem,
        fillInputMaskAttrs_idem, fillInputMaskVals_idem, fillRichTextAttrs_idem,
        fillNumberAttrs_idem, fillNumberVals_idem, fillDateAttrs_idem,
        fillCommonTop_idem, fillJsonAttrs_idem, fillEmailAttrs_idem,
        fillPasswordAttrs_idem, fillPasswordVals_idem, fillEnumerationAttrs_idem,
        fillMediaAttrs_idem, fillRelationAttrs_idem, fillAutocompleteAttrs_idem,
        fillCascadeSelectAttrs_idem, fillDropdownAttrs_idem, fillDropdownTop_idem,
        fillTextareaAttrs_idem, fillTextareaVals_idem, fillUidAttrs_idem]


theorem applyDefaults_keep (fd : Field) (k : String) :
    (truthy (fd.attributes k) = true →
      (applyDefaults fd).attributes k = fd.attributes k) ∧
    (truthy (fd.validations k) = true →
      (applyDefaults fd).validations k = fd.validations k) := by
  cases fd with
  | mk t top attrs vals =>
    cases t with
    | TEXT => exact ⟨fun h => fillTextAttrs_keep _ _ h, fun h => fillTextVals_keep _ _ h⟩
    | NUMBER => exact ⟨fun h => fillNumberAttrs_keep _ _ h, fun h => fillNumberVals_keep _ _ h⟩
    | DATE => exact ⟨fun h => fillDateAttrs_keep _ _ h, fun _ => rfl⟩
    | IMAGE => exact ⟨fun _ => rfl, fun _ => rfl⟩
    | RICH_TEXT => exact ⟨fun _ => rfl, fun _ => rfl⟩
    | MASK => exact ⟨fun _ => rfl, fun _ => rfl⟩
    | CALENDAR => exact ⟨fun _ => rfl, fun _ => rfl⟩
    | EDITOR => exact ⟨fun _ => rfl, fun _ => rfl⟩
    | PASSWORD => exact ⟨fun h => fillPasswordAttrs_keep _ _ h, fun h => fillPasswordVals_keep _ _ h⟩
    | AUTOCOMPLETE => exact ⟨fun h => fillAutocompleteAttrs_keep _ _ h, fun _ => rfl⟩
    | CASCADE_SELECT => exact ⟨fun h => fillCascadeSelectAttrs_keep _ _ h, fun _ => rfl⟩
    | DROPDOWN => exact ⟨fun h => fillDropdownAttrs_keep _ _ h, fun _ => rfl⟩
    | FILE => exact ⟨fun _ => rfl, fun _ => rfl⟩
    | MULTI_STATE_CHECKBOX => exact ⟨fun _ => rfl, fun _ => rfl⟩
    | MULTI_SELECT => exact ⟨fun _ => rfl, fun _ => rfl⟩
    | MENTION => exact ⟨fun _ => rfl, fun _ => rfl⟩
    | TEXTAREA => exact ⟨fun _ => rfl, fun _ => rfl⟩
    | OTP => exact ⟨fun _ => rfl, fun _ => rfl⟩
    | RICH_TEXT_BLOCKS => exact ⟨fun h => fillRichTextAttrs_keep _ _ h, fun _ => rfl⟩
    | RICH_TEXT_MARKDOWN => exact ⟨fun h => fillRichTextAttrs_keep _ _ h, fun _ => rfl⟩
    | BOOLEAN => exact ⟨fun _ => rfl, fun _ => rfl⟩
    | JSON => exact ⟨fun h => fillJsonAttrs_keep _ _ h, fun _ => rfl⟩
    | EMAIL => exact ⟨fun h => fillEmailAttrs_keep _ _ h, fun _ => rfl⟩
    | MEDIA => exact ⟨fun h => fillMediaAttrs_keep _ _ h, fun _ => rfl⟩
    | ENUMERATION => exact ⟨fun h => fillEnumerationAttrs_keep _ _ h, fun _ => rfl⟩
    | RELATION => exact ⟨fun h => fillRelationAttrs_keep _ _ h, fun _ => rfl⟩
    | UID => exact ⟨fun h => fillUidAttrs_keep _ _ h, fun _ => rfl⟩
    | COMPONENT => exact ⟨fun _ => rfl, fun _ => rfl⟩
    | DYNAMIC_ZONE => exact ⟨fun _ => rfl, fun _ => rfl⟩
    | INPUT_MASK => exact ⟨fun h => fillInputMaskAttrs_keep _ _ h,
        fun h => fillInputMaskVals_keep _ _ _ h⟩
    | INPUT_TEXTAREA => exact ⟨fun h => fillTextareaAttrs_keep _ _ h,
        fun h => fillTextareaVals_keep _ _ h⟩
theorem count_six : ∀ a b c d e f : Bool,
    [a, b, c, d, e, f].count true =
      (if a = true then 1 else 0) + (if b = true then 1 else 0)
        + (if c = true then 1 else 0) + (if d = true then 1 else 0)
        + (if e = true then 1 else 0) + (if f = true then 1 else 0) := by
  decide

theorem keyfilter_class_spec (kf : String) (pred : String → Bool)
    (hkf : kf ≠ "") (hacc : ∀ s, keyfilterAccepts kf s = pred s)
    (v vp : String) :
    (pred vp = false →
      textFieldOnChange (kfAttrs kf) vp = none ∧
      valueAfterEdit (kfAttrs kf) v vp = v) ∧
    (pred vp = true → textFieldOnChange (kfAttrs kf) vp = some vp) := by
  have hread : kfAttrs kf "keyfilter" = JVal.s kf := by simp [kfAttrs, Obj.set]
  have htr : truthy (JVal.s kf) = true := by
    simpa [truthy] using hkf
  constructor
  · intro h
    have hch : textFieldOnChange (kfAttrs kf) vp = none := by
      simp [textFieldOnChange, hread, htr, hacc, h]
    exact ⟨hch, by unfold valueAfterEdit; rw [hch]⟩
  · intro h
    simp [textFieldOnChange, hread, htr, hacc, h]

/-- Claim C1: mask round-trip for the pattern 999-999-9999. -/
theorem mask_roundtrip_c1 :
    applyMask "5551234567" "999-999-9999" '_' = "555-123-4567" ∧
    unmaskValue "555-123-4567" "999-999-9999" = "5551234567" := by
  decide

/-- Claim C2: the save-time default-fill is idempotent on attributes and
validations for every field of every kind. -/
theorem default_fill_idempotent_c2 (fd : Field) :
    (applyDefaults (applyDefaults fd)).attributes = (applyDefaults fd).attributes ∧
    (applyDefaults (applyDefaults fd)).validations = (applyDefaults fd).validations := by
  rw [applyDefaults_idem]
  exact ⟨rfl, rfl⟩

/-- Claim C3, counterexample: a falsy user value (empty-string placeholder on
a TEXT field) is overwritten by the kind default, so user-entered values are
not always preserved. -/
theorem default_fill_overwrites_falsy_c3 :
    fdPlaceholderEmpty.attributes "placeholder" = JVal.s "" ∧
    (applyDefaults fdPlaceholderEmpty).attributes "placeholder" =
      JVal.s "Enter text..." ∧
    JVal.s "Enter text..." ≠ JVal.s "" := by
  refine ⟨rfl, rfl, by simp⟩

/-- Claim C3, amended: default-fill preserves every user-assigned attribute
and validation value that is truthy. -/
theorem default_fill_additive_truthy_c3 (fd : Field) (k : String) :
    (truthy (fd.attributes k) = true →
      (applyDefaults fd).attributes k = fd.attributes k) ∧
    (truthy (fd.validations k) = true →
      (applyDefaults fd).validations k = fd.validations k) :=
  applyDefaults_keep fd k

/-- Witness for C3's amended theorem at a concrete field. -/
theorem default_fill_additive_truthy_c3_witness :
    truthy (fdPlaceholderCustom.attributes "placeholder") = true ∧
    truthy (fdPlaceholderCustom.validations "minLength") = true ∧
    (applyDefaults fdPlaceholderCustom).attributes "placeholder" =
      fdPlaceholderCustom.attributes "placeholder" ∧
    (applyDefaults fdPlaceholderCustom).validations "minLength" =
      fdPlaceholderCustom.validations "minLength" :=
  ⟨rfl, rfl,
   (default_fill_additive_truthy_c3 fdPlaceholderCustom "placeholder").1 rfl,
   (default_fill_additive_truthy_c3 fdPlaceholderCustom "minLength").2 rfl⟩

/-- Claim C4: the derivation formula is as claimed, but a manually edited
apiId is overwritten by the next name change whenever the dialog was opened
without a pre-existing field apiId — the guard tests the field prop, not the
form state. -/
theorem handleNameChange_c4 :
    deriveApiId "My Field!" = "my_field" ∧
    (handleNameChange none (setApiId ⟨"", ""⟩ "custom_id") "My Field!").apiId =
      "my_field" ∧
    "my_field" ≠ "custom_id" := by
  decide

/-- Claim C5: each keyfilter class rejects edits failing its pattern (the
input keeps its previous value) and passes edits matching it. -/
theorem keyfilter_rejects_c5 (v vp : String) :
    ((reInt vp = false → textFieldOnChange (kfAttrs "int") vp = none ∧
        valueAfterEdit (kfAttrs "int") v vp = v) ∧
      (reInt vp = true → textFieldOnChange (kfAttrs "int") vp = some vp)) ∧
    ((rePInt vp = false → textFieldOnChange (kfAttrs "pint") vp = none ∧
        valueAfterEdit (kfAttrs "pint") v vp = v) ∧
      (rePInt vp = true → textFieldOnChange (kfAttrs "pint") vp = some vp)) ∧
    ((reNum vp = false → textFieldOnChange (kfAttrs "num") vp = none ∧
        valueAfterEdit (kfAttrs "num") v vp = v) ∧
      (reNum vp = true → textFieldOnChange (kfAttrs "num") vp = some vp)) ∧
    ((rePNum vp = false → textFieldOnChange (kfAttrs "pnum") vp = none ∧
        valueAfterEdit (kfAttrs "pnum") v vp = v) ∧
      (rePNum vp = true → textFieldOnChange (kfAttrs "pnum") vp = some vp)) ∧
    ((reMoney vp = false → textFieldOnChange (kfAttrs "money") vp = none ∧
        valueAfterEdit (kfAttrs "money") v vp = v) ∧
      (reMoney vp = true → textFieldOnChange (kfAttrs "money") vp = some vp)) ∧
    ((reHex vp = false → textFieldOnChange (kfAttrs "hex") vp = none ∧
        valueAfterEdit (kfAttrs "hex") v vp = v) ∧
      (reHex vp = true → textFieldOnChange (kfAttrs "hex") vp = some vp)) ∧
    ((reAlpha vp = false → textFieldOnChange (kfAttrs "alpha") vp = none ∧
        valueAfterEdit (kfAttrs "alpha") v vp = v) ∧
      (reAlpha vp = true → textFieldOnChange (kfAttrs "alpha") vp = some vp)) ∧
    ((reAlphaNum vp = false → textFieldOnChange (kfAttrs "alphanum") vp = none ∧
        valueAfterEdit (kfAttrs "alphanum") v vp = v) ∧
      (reAlphaNum vp = true →
        textFieldOnChange (kfAttrs "alphanum") vp = some vp)) :=
  ⟨keyfilter_class_spec "int" reInt (by decide) (fun _ => rfl) v vp,
   keyfilter_class_spec "pint" rePInt (by decide) (fun _ => rfl) v vp,
   keyfilter_class_spec "num" reNum (by decide) (fun _ => rfl) v vp,
   keyfilter_class_spec "pnum" rePNum (by decide) (fun _ => rfl) v vp,
   keyfilter_class_spec "money" reMoney (by decide) (fun _ => rfl) v vp,
   keyfilter_class_spec "hex" reHex (by decide) (fun _ => rfl) v vp,
   keyfilter_class_spec "alpha" reAlpha (by decide) (fun _ => rfl) v vp,
   keyfilter_class_spec "alphanum" reAlphaNum (by decide) (fun _ => rfl) v vp⟩

/-- Witness for C5 at concrete edits, one per keyfilter class. -/
theorem keyfilter_rejects_c5_witness :
    (textFieldOnChange (kfAttrs "int") "12a" = none ∧
      valueAfterEdit (kfAttrs "int") "12" "12a" = "12") ∧
    (textFieldOnChange (kfAttrs "pint") "-3" = none ∧
      valueAfterEdit (kfAttrs "pint") "" "-3" = "") ∧
    textFieldOnChange (kfAttrs "num") "-1.5" = some "-1.5" ∧
    (textFieldOnChange (kfAttrs "pnum") "-1.5" = none ∧
      valueAfterEdit (kfAttrs "pnum") "1.5" "-1.5" = "1.5") ∧
    (textFieldOnChange (kfAttrs "money") "1.234" = none ∧
      valueAfterEdit (kfAttrs "money") "1.23" "1.234" = "1.23") ∧
    textFieldOnChange (kfAttrs "hex") "1aF" = some "1aF" ∧
    (textFieldOnChange (kfAttrs "alpha") "ab9" = none ∧
      valueAfterEdit (kfAttrs "alpha") "ab" "ab9" = "ab") ∧
    textFieldOnChange (kfAttrs "alphanum") "a9" = some "a9" :=
  ⟨(keyfilter_rejects_c5 "12" "12a").1.1 (by decide),
   (keyfilter_rejects_c5 "" "-3").2.1.1 (by decide),
   (keyfilter_rejects_c5 "x" "-1.5").2.2.1.2 (by decide),
   (keyfilter_rejects_c5 "1.5" "-1.5").2.2.2.1.1 (by decide),
   (keyfilter_rejects_c5 "1.23" "1.234").2.2.2.2.1.1 (by decide),
   (keyfilter_rejects_c5 "x" "1aF").2.2.2.2.2.1.2 (by decide),
   (keyfilter_rejects_c5 "ab" "ab9").2.2.2.2.2.2.1.1 (by decide),
   (keyfilter_rejects_c5 "x" "a9").2.2.2.2.2.2.2.2 (by decide)⟩

/-- Claim C6, counterexample: on a required short-text field with no other
rules, blurring with the empty value is computed valid by the code, while the
claimed rule set (which includes required) says invalid. -/
theorem text_blur_required_gap_c6 :
    textBlurIsValid requiredOnlyVals noRegexOracle "" = true ∧
    specClaimedTextBlurInvalid requiredOnlyVals noRegexOracle "" = true :=
  ⟨rfl, rfl⟩

/-- Claim C6, amended: short-text blur validation evaluates minLength,
maxLength and regex (not required) and is invalid exactly when one of those
fails; the claim's minLength instance holds. -/
theorem text_blur_c6 (vals : Obj) (rx : String → String → Option Bool)
    (value : String) :
    (textBlurIsValid vals rx value = false ↔
      (minLengthFails vals value = true ∨ maxLengthFails vals value = true ∨
        regexRuleFails vals rx value = true)) ∧
    textBlurIsValid minLen3Vals rx "ab" = false ∧
    textBlurIsValid minLen3Vals rx "abc" = true := by
  refine ⟨?_, rfl, rfl⟩
  cases hm : minLengthFails vals value <;>
    cases hb : maxLengthFails vals value <;>
      cases hr : regexRuleFails vals rx value <;>
        simp [textBlurIsValid, hm, hb, hr]

/-- Claim C7: the field-type name mapping returns members unchanged on enum
values and falls back to TEXT with a warning otherwise; it is total. -/
theorem mapFieldType_total_fallback_c7 (s : String) :
    (s ∈ fieldTypeEnumValues →
      fieldTypeValue (mapFieldTypeNameToEnum s).1 = s ∧
      (mapFieldTypeNameToEnum s).2 = false) ∧
    (s ∉ fieldTypeEnumValues → mapFieldTypeNameToEnum s = (.TEXT, true)) := by
  constructor
  · intro h
    fin_cases h <;> decide
  · intro h
    unfold mapFieldTypeNameToEnum
    rw [if_neg h]

/-- Witness for C7 at a recognized and an unrecognized name. -/
theorem mapFieldType_total_fallback_c7_witness :
    (fieldTypeValue (mapFieldTypeNameToEnum "password").1 = "password" ∧
      (mapFieldTypeNameToEnum "password").2 = false) ∧
    mapFieldTypeNameToEnum "lorem_ipsum" = (.TEXT, true) :=
  ⟨(mapFieldType_total_fallback_c7 "password").1 (by decide),
   (mapFieldType_total_fallback_c7 "lorem_ipsum").2 (by decide)⟩

/-- Claim C8: password strength is the count of six criteria classified at
thresholds 3 and 5, with the claimed concrete classifications. -/
theorem password_strength_c8 :
    (∀ p : String, getPasswordStrength p =
      (if passwordScore p < 3 then Strength.weak
       else if passwordScore p < 5 then Strength.medium else Strength.strong)) ∧
    getPasswordStrength "abc" = Strength.weak ∧
    (getPasswordStrength "Abcdef12" = Strength.medium ∨
      getPasswordStrength "Abcdef12" = Strength.strong) ∧
    getPasswordStrength "Abcdef123!@#longenough" = Strength.strong := by
  refine ⟨?_, by decide, by decide, by decide⟩
  intro p
  by_cases hp : p = ""
  · subst hp; decide
  · unfold getPasswordStrength passwordScore passwordCriteria
    rw [if_neg hp]
    simp only [count_six, decide_eq_true_eq]

/-- Claim C9: a field with isVisible === false renders nothing, whatever its
kind, attributes or current value. -/
theorem invisible_field_renders_nothing_c9 (f : Field) (value : JVal)
    (h : f.top "isVisible" = JVal.b false) : renderField f value = none := by
  unfold renderField
  rw [h]

/-- Witness for C9 at a concrete invisible date field. -/
theorem invisible_field_renders_nothing_c9_witness :
    renderField invisibleField (JVal.s "2024-01-01") = none :=
  invisible_field_renders_nothing_c9 invisibleField (JVal.s "2024-01-01") rfl

/-- Claim C10, counterexample: with min = 5 and max = 3, the typed value 4 is
below min but onChange receives 3 (the max bound), not min, because the code
clamps to min first and then to max. -/
theorem number_input_clamp_c10_counterexample :
    numberInputOnChange (numAttrs (some 5) (some 3)) (some 4) = some 3 ∧
    (4 : ℚ) < 5 ∧ (3 : ℚ) ≠ 5 := by
  decide

/-- Claim C10, amended: provided the configured bounds are consistent
(min ≤ max whenever both are set), a parse below min yields onChange(min), a
parse above max yields onChange(max), and the empty input yields
onChange(null). -/
theorem number_input_clamp_c10 (mn mx : Option ℚ) (x : ℚ)
    (hcons : ∀ m mb, mn = some m → mx = some mb → m ≤ mb) :
    numberInputOnChange (numAttrs mn mx) none = none ∧
    (∀ m, mn = some m → x < m →
      numberInputOnChange (numAttrs mn mx) (some x) = some m) ∧
    (∀ mb, mx = some mb → x > mb →
      numberInputOnChange (numAttrs mn mx) (some x) = some mb) := by
  refine ⟨rfl, ?_, ?_⟩
  · intro m hm hx
    subst hm
    cases mx with
    | none => simp [numberInputOnChange, numAttrs, Obj.set, hx]
    | some mb =>
        have hle : m ≤ mb := hcons m mb rfl rfl
        have hng : ¬ (mb < m) := not_lt.mpr hle
        simp [numberInputOnChange, numAttrs, Obj.set, hx, hng]
  · intro mb hmb hx
    subst hmb
    cases mn with
    | none => simp [numberInputOnChange, numAttrs, Obj.set, hx]
    | some m =>
        have hle : m ≤ mb := hcons m mb rfl rfl
        have hnlt : ¬ (x < m) := not_lt.mpr (hle.trans hx.le)
        simp [numberInputOnChange, numAttrs, Obj.set, hx, hnlt]

/-- Witness for C10's amended theorem with bounds 2 and 10. -/
theorem number_input_clamp_c10_witness :
    numberInputOnChange (numAttrs (some 2) (some 10)) (some 1) = some 2 ∧
    numberInputOnChange (numAttrs (some 2) (some 10)) none = none := by
  have h := number_input_clamp_c10 (some 2) (some 10) 1
    (by intro m mb hm hmb; cases hm; cases hmb; norm_num)
  exact ⟨h.2.1 2 rfl (by norm_num), h.1⟩

end CmsFields
